import Mathlib

/-! DeviceClaimRK: the claiming workflow and its persisted record.

A shallow embedding of `src/DeviceClaimRK.h` and `src/DeviceClaimRK.cpp`.

* Machine integers are natural numbers; where the source computes in a fixed
  width the reduction is written out (`% 65536`, `% 4294967296`).
* The object's fields are the structure `DeviceClaim`; everything outside the
  object that a method reads or changes is the structure `World` (EEPROM
  bytes, the device id, and the `Particle.publish` and `Particle.subscribe`
  calls made so far, in the order they were made).  `Log.info` calls are not
  modelled.
* `Particle.connected()` and `millis()` are inputs of `loop`.  A `loop()` call
  reads the clock at most twice, once in a dwell-time test and once to stamp
  `stateTime`; it is given the two readings `now` and `now2` (the reading of
  the first `millis()` call and of the second, if one is made).
* A C string is a `String`; one `Char` stands for one `char`, the terminating
  NUL is not part of it.
-/

namespace DeviceClaimRK

/-! ## Data model -/

/-- One byte of EEPROM. -/
abbrev Byte := Fin 256

/-- The EEPROM: a byte at every address. -/
abbrev Store := Nat → Byte

/-- The low byte of a number, as a `uint8_t` store does. -/
def byteOf (n : Nat) : Byte := ⟨n % 256, Nat.mod_lt n (by decide)⟩

/-- Structure stored in EEPROM to hold the claimed flag
(`DeviceClaimConfigData`: `uint32_t magic; uint16_t flags; uint16_t reserved`). -/
structure DeviceClaimConfigData where
  magic : Nat
  flags : Nat
  reserved : Nat
deriving DecidableEq, Repr

/-- The fields of a `DeviceClaimConfigData` fit their C types. -/
def DeviceClaimConfigData.InRange (d : DeviceClaimConfigData) : Prop :=
  d.magic < 4294967296 ∧ d.flags < 65536 ∧ d.reserved < 65536

instance (d : DeviceClaimConfigData) : Decidable d.InRange := by
  unfold DeviceClaimConfigData.InRange
  exact inferInstance

/-- Magic value stored in the record (`CONFIG_MAGIC`). -/
def CONFIG_MAGIC : Nat := 0x750ca339

/-- Bit that indicates that claiming has been done (`CONFIG_FLAG_CLAIMED`). -/
def CONFIG_FLAG_CLAIMED : Nat := 0x0001

/-- Finite state machine states (`enum class State`). -/
inductive State where
  | START
  | CONNECT_WAIT
  | REQUEST_WAIT
  | DISCONNECT_WAIT
  | RECONNECT_WAIT
  | CHECK_CLAIM
  | CHECK_WAIT
  | FAILURE
  | DONE
deriving DecidableEq, Repr

/-- Result codes from `getProgress()` (`enum class Progress`). -/
inductive Progress where
  | IN_PROGRESS
  | FAILURE
  | DONE
deriving DecidableEq, Repr

/-- One `Particle.publish` call: the event name, the data argument (`none`
when the call passes no data argument) and whether `PRIVATE` was passed. -/
structure Event where
  name : String
  data : Option String
  isPrivate : Bool
deriving DecidableEq, Repr

/-- Scope argument of `Particle.subscribe`. -/
inductive Scope where
  | MY_DEVICES
  | ALL_DEVICES
deriving DecidableEq, Repr

/-- One `Particle.subscribe` call: the event name and the scope. -/
structure Subscription where
  eventName : String
  scope : Scope
deriving DecidableEq, Repr

/-- The member variables of `class DeviceClaim`. -/
structure DeviceClaim where
  eepromAddr : Nat
  claimEventName : String
  testEventName : String
  configData : DeviceClaimConfigData
  state : State
  stateTime : Nat
  connectWaitMs : Nat
  claimRequestWaitMs : Nat
  testWaitMs : Nat

/-- One call into the cloud service. -/
inductive CloudCall where
  | publish (e : Event)
  | subscribe (s : Subscription)
deriving DecidableEq, Repr

/-- What lies outside the object: the EEPROM, the device id returned by
`System.deviceID()`, and the cloud calls made so far, oldest first. -/
structure World where
  eeprom : Store
  deviceID : String
  cloud : List CloudCall

/-- The events published so far, oldest first. -/
def World.published (w : World) : List Event :=
  w.cloud.filterMap fun c =>
    match c with
    | CloudCall.publish e => some e
    | CloudCall.subscribe _ => none

/-- The subscriptions registered so far, oldest first. -/
def World.subscriptions (w : World) : List Subscription :=
  w.cloud.filterMap fun c =>
    match c with
    | CloudCall.publish _ => none
    | CloudCall.subscribe s => some s

/-- A `DeviceClaim` as its constructor leaves it: the default member
initialisers of the header; `configData` has no initialiser, so its content
`uninit` is whatever the memory held. -/
def DeviceClaim.new (uninit : DeviceClaimConfigData) : DeviceClaim :=
  { eepromAddr := 1998
    claimEventName := "deviceClaim"
    testEventName := "deviceTest"
    configData := uninit
    state := State.START
    stateTime := 0
    connectWaitMs := 2000
    claimRequestWaitMs := 3000
    testWaitMs := 10000 }

/-- Sets the address in EEPROM where the data is stored. -/
def DeviceClaim.withEepromAddr (dc : DeviceClaim) (eepromAddr : Nat) : DeviceClaim :=
  { dc with eepromAddr := eepromAddr }

/-- Sets the event name used to trigger claiming. -/
def DeviceClaim.withClaimEventName (dc : DeviceClaim) (claimEventName : String) : DeviceClaim :=
  { dc with claimEventName := claimEventName }

/-- Sets the event name used to test whether claiming worked. -/
def DeviceClaim.withTestEventName (dc : DeviceClaim) (testEventName : String) : DeviceClaim :=
  { dc with testEventName := testEventName }

/-- Sets the time after connecting to the cloud to send the claim event. -/
def DeviceClaim.withConnectWaitMs (dc : DeviceClaim) (ms : Nat) : DeviceClaim :=
  { dc with connectWaitMs := ms }

/-- Sets the time after sending the claim event before disconnecting. -/
def DeviceClaim.waitClaimRequestWaitMs (dc : DeviceClaim) (ms : Nat) : DeviceClaim :=
  { dc with claimRequestWaitMs := ms }

/-- Sets the time to wait for a test event response before declaring failure. -/
def DeviceClaim.withTestWaitMs (dc : DeviceClaim) (ms : Nat) : DeviceClaim :=
  { dc with testWaitMs := ms }

/-- A world in which nothing has been published or subscribed yet. -/
def World.boot (eeprom : Store) (deviceID : String) : World :=
  { eeprom := eeprom, deviceID := deviceID, cloud := [] }

/-! ## The byte store -/

/-- Modelled from the spec: `EEPROM.get(addr, data)` of the Particle library,
which is not part of the repository.  It reads the 8 bytes at `addr`: a 4-byte
little-endian magic, 2-byte flags, 2-byte reserved. -/
def EEPROM_get (s : Store) (addr : Nat) : DeviceClaimConfigData :=
  { magic := (s addr).val + 256 * (s (addr + 1)).val + 65536 * (s (addr + 2)).val
      + 16777216 * (s (addr + 3)).val
    flags := (s (addr + 4)).val + 256 * (s (addr + 5)).val
    reserved := (s (addr + 6)).val + 256 * (s (addr + 7)).val }

/-- Modelled from the spec: `EEPROM.put(addr, data)` of the Particle library,
which is not part of the repository.  It overwrites the 8 bytes at `addr` with
the record, in the layout `EEPROM_get` reads, and no other byte. -/
def EEPROM_put (s : Store) (addr : Nat) (d : DeviceClaimConfigData) : Store :=
  fun i =>
    if i = addr then byteOf d.magic
    else if i = addr + 1 then byteOf (d.magic / 256)
    else if i = addr + 2 then byteOf (d.magic / 65536)
    else if i = addr + 3 then byteOf (d.magic / 16777216)
    else if i = addr + 4 then byteOf d.flags
    else if i = addr + 5 then byteOf (d.flags / 256)
    else if i = addr + 6 then byteOf d.reserved
    else if i = addr + 7 then byteOf (d.reserved / 256)
    else s i

/-! ## Methods of `DeviceClaim` -/

/-- Reads the configuration data out of EEPROM at address `eepromAddr`; the
result is the return value and the record read. -/
def readConfigData (dc : DeviceClaim) (w : World) : Bool × DeviceClaimConfigData :=
  (true, EEPROM_get w.eeprom dc.eepromAddr)

/-- Writes the configuration data to EEPROM at address `eepromAddr`; the
result is the return value and the world afterwards. -/
def writeConfigData (dc : DeviceClaim) (data : DeviceClaimConfigData) (w : World) :
    Bool × World :=
  (true, { w with eeprom := EEPROM_put w.eeprom dc.eepromAddr data })

/-- Set or clear the bits of `mask` in `configData.flags` (a `uint16_t`). -/
def setFlag (mask : Nat) (value : Bool) (dc : DeviceClaim) : DeviceClaim :=
  if value then
    { dc with configData :=
        { dc.configData with flags := (dc.configData.flags ||| mask) % 65536 } }
  else
    { dc with configData :=
        { dc.configData with
          flags := (dc.configData.flags &&& (65535 ^^^ (mask % 65536))) % 65536 } }

/-- Whether some bit of `mask` is set in `configData.flags`. -/
def getFlag (mask : Nat) (dc : DeviceClaim) : Bool :=
  (dc.configData.flags &&& mask) != 0

/-- True if the `CONFIG_FLAG_CLAIMED` bit is set in the configuration data. -/
def isClaimed (dc : DeviceClaim) : Bool :=
  getFlag CONFIG_FLAG_CLAIMED dc

/-- The method `setup()`. -/
def setup (dc : DeviceClaim) (w : World) : DeviceClaim × World :=
  let r := readConfigData dc w
  let dc1 : DeviceClaim := { dc with configData := r.2 }
  let reinitData : Bool := !(r.1 && dc1.configData.magic == CONFIG_MAGIC)
  let s : DeviceClaim × World :=
    if reinitData then
      let dc2 : DeviceClaim :=
        { dc1 with configData := { magic := CONFIG_MAGIC, flags := 0, reserved := 0 } }
      (dc2, (writeConfigData dc2 dc2.configData w).2)
    else (dc1, w)
  if isClaimed s.1 then ({ s.1 with state := State.DONE }, s.2) else s

/-- The value of `millis() - stateTime` in 32-bit unsigned arithmetic. -/
def millisSince (now stateTime : Nat) : Nat :=
  (now % 4294967296 + 4294967296 - stateTime % 4294967296) % 4294967296

/-- What `snprintf(eventName, sizeof(eventName), "%s/hook-response/%s", ...)`
leaves in the 64-byte buffer: the first 63 characters of the formatted text. -/
def hookResponseName (deviceID testEventName : String) : String :=
  String.mk ((deviceID ++ "/hook-response/" ++ testEventName).data.take 63)

/-- The method `loop()`, called with the value `connected` of
`Particle.connected()`, the reading `now` of the first `millis()` call and the
reading `now2` of the second one. -/
def loop (connected : Bool) (now now2 : Nat) (dc : DeviceClaim) (w : World) :
    DeviceClaim × World :=
  match dc.state with
  | State.START =>
    if connected then
      ({ dc with state := State.CONNECT_WAIT, stateTime := now }, w)
    else (dc, w)
  | State.CONNECT_WAIT =>
    if millisSince now dc.stateTime ≥ dc.connectWaitMs then
      ({ dc with state := State.REQUEST_WAIT, stateTime := now2 },
       { w with
         cloud := w.cloud ++ [CloudCall.publish (Event.mk dc.claimEventName (some "") true)] })
    else (dc, w)
  | State.REQUEST_WAIT =>
    if millisSince now dc.stateTime ≥ dc.claimRequestWaitMs then
      ({ dc with state := State.DISCONNECT_WAIT, stateTime := now2 },
       { w with
         cloud := w.cloud ++
           [CloudCall.publish (Event.mk "spark/device/session/end" (some "") true)] })
    else (dc, w)
  | State.DISCONNECT_WAIT =>
    if !connected then
      ({ dc with state := State.RECONNECT_WAIT, stateTime := now }, w)
    else (dc, w)
  | State.RECONNECT_WAIT =>
    if connected then
      ({ dc with state := State.CHECK_CLAIM, stateTime := now }, w)
    else (dc, w)
  | State.CHECK_CLAIM =>
    ({ dc with state := State.CHECK_WAIT, stateTime := now },
     { w with
       cloud := w.cloud ++
         [CloudCall.subscribe
            (Subscription.mk (hookResponseName w.deviceID dc.testEventName) Scope.MY_DEVICES),
          CloudCall.publish (Event.mk dc.testEventName none true)] })
  | State.CHECK_WAIT =>
    if millisSince now dc.stateTime ≥ dc.testWaitMs then
      ({ dc with state := State.FAILURE }, w)
    else (dc, w)
  | State.FAILURE => (dc, w)
  | State.DONE => (dc, w)

/-- The method `forceClaim()`. -/
def forceClaim (dc : DeviceClaim) (w : World) : DeviceClaim × World :=
  let dc1 := setFlag CONFIG_FLAG_CLAIMED false dc
  let w1 := (writeConfigData dc1 dc1.configData w).2
  if dc1.state = State.DONE ∨ dc1.state = State.FAILURE then
    ({ dc1 with state := State.START }, w1)
  else (dc1, w1)

/-- The method `getProgress() const`. -/
def getProgress (dc : DeviceClaim) : Progress :=
  match dc.state with
  | State.DONE => Progress.DONE
  | State.FAILURE => Progress.FAILURE
  | _ => Progress.IN_PROGRESS

/-- The value of `strlen(eventName)`. -/
def strlen (eventName : String) : Nat := eventName.data.length

/-- The read `eventName[i]` of a NUL-terminated C string: defined for the
characters of the string and for the terminator, `none` outside the array. -/
def charAt (eventName : String) (i : Nat) : Option Char :=
  (eventName.data ++ [Char.ofNat 0])[i]?

/-- The method `subscriptionHandler(eventName, data)`.  The result is `none`
when the method reads outside the array `eventName`; the reads are made in the
order of the source's `&&` chain, each only when the tests before it passed. -/
def subscriptionHandler (eventName : String) (data : String) (dc : DeviceClaim)
    (w : World) : Option (DeviceClaim × World) :=
  let len := strlen eventName
  if len ≥ 2 then
    match charAt eventName (len - 2) with
    | none => none
    | some c1 =>
      if c1 = '/' then
        match charAt eventName (len - 1) with
        | none => none
        | some c2 =>
          if c2 = '0' then
            let dc1 := setFlag CONFIG_FLAG_CLAIMED true dc
            let w1 := (writeConfigData dc1 dc1.configData w).2
            some ({ dc1 with state := State.DONE }, w1)
          else some (dc, w)
      else some (dc, w)
  else some (dc, w)

/-! ## Sequences of calls -/

/-- The inputs of one `loop()` call: the connectivity value and the two clock
readings. -/
structure Tick where
  connected : Bool
  now : Nat
  now2 : Nat
deriving DecidableEq, Repr

/-- Successive `loop()` calls, one for each tick, as the host program's
`loop()` makes them. -/
def loops : List Tick → DeviceClaim × World → DeviceClaim × World
  | [], s => s
  | t :: ts, s => loops ts (loop t.connected t.now t.now2 s.1 s.2)

/-- One call made on the object after `setup()`. -/
inductive Call where
  | loop (connected : Bool) (now : Nat) (now2 : Nat)
  | subscriptionHandler (eventName : String) (data : String)
  | forceClaim

/-- The effect of one call; `none` when the call reads outside an array. -/
def call : Call → DeviceClaim × World → Option (DeviceClaim × World)
  | Call.loop connected now now2, s => some (loop connected now now2 s.1 s.2)
  | Call.subscriptionHandler eventName data, s => subscriptionHandler eventName data s.1 s.2
  | Call.forceClaim, s => some (forceClaim s.1 s.2)

/-- The effect of a sequence of calls, first call first. -/
def calls : List Call → DeviceClaim × World → Option (DeviceClaim × World)
  | [], s => some s
  | c :: cs, s => (call c s).bind (calls cs)

/-- The record stored at the object's address is the in-memory record, and its
magic is `CONFIG_MAGIC`. -/
def Persisted (s : DeviceClaim × World) : Prop :=
  EEPROM_get s.2.eeprom s.1.eepromAddr = s.1.configData ∧
  s.1.configData.magic = CONFIG_MAGIC

/-- The position of a state in the declaration order of `enum class State`:
START, CONNECT_WAIT, REQUEST_WAIT, DISCONNECT_WAIT, RECONNECT_WAIT,
CHECK_CLAIM, CHECK_WAIT, FAILURE, DONE. -/
def State.rank : State → Nat
  | State.START => 0
  | State.CONNECT_WAIT => 1
  | State.REQUEST_WAIT => 2
  | State.DISCONNECT_WAIT => 3
  | State.RECONNECT_WAIT => 4
  | State.CHECK_CLAIM => 5
  | State.CHECK_WAIT => 6
  | State.FAILURE => 7
  | State.DONE => 8

/-- The publish calls of one handshake, in the order `loop()` makes them: the
claim event when leaving CONNECT_WAIT, the session-end event when leaving
REQUEST_WAIT, the test event in CHECK_CLAIM. -/
def handshakeEvents (claimEventName testEventName : String) : List Event :=
  [Event.mk claimEventName (some "") true,
   Event.mk "spark/device/session/end" (some "") true,
   Event.mk testEventName none true]

/-- How many of the handshake's events `loop()` has published when it has
reached a state on its own path. -/
def State.publishedCount : State → Nat
  | State.START => 0
  | State.CONNECT_WAIT => 0
  | State.REQUEST_WAIT => 1
  | State.DISCONNECT_WAIT => 2
  | State.RECONNECT_WAIT => 2
  | State.CHECK_CLAIM => 2
  | State.CHECK_WAIT => 3
  | State.FAILURE => 3
  | State.DONE => 3

/-- The cloud log of a running handshake that started in the world `w0`: the
event names are the configured ones, the events published since are the first
`k` handshake events, at most one subscription has been registered since, and
outside DONE (which the response handler can enter from any state) `k` is the
count of the state and nothing is subscribed before CHECK_WAIT. -/
def HandshakeLog (w0 : World) (claimEventName testEventName : String)
    (s : DeviceClaim × World) : Prop :=
  s.1.claimEventName = claimEventName ∧ s.1.testEventName = testEventName ∧
  ∃ k subs, s.2.published =
      w0.published ++ (handshakeEvents claimEventName testEventName).take k ∧
    s.2.subscriptions = w0.subscriptions ++ subs ∧ subs.length ≤ 1 ∧
    (s.1.state ≠ State.DONE →
      k = s.1.state.publishedCount ∧ (s.1.state.rank ≤ 5 → subs = []))

/-! ## Basic facts -/

theorem byteOf_val (n : Nat) : (byteOf n).val = n % 256 := rfl

/-- Reading back a record that was just written gives the record reduced to
the widths of its fields. -/
theorem EEPROM_get_put (s : Store) (addr : Nat) (d : DeviceClaimConfigData) :
    EEPROM_get (EEPROM_put s addr d) addr =
      { magic := d.magic % 4294967296, flags := d.flags % 65536,
        reserved := d.reserved % 65536 } := by
  simp only [EEPROM_get, EEPROM_put, DeviceClaimConfigData.mk.injEq]
  simp only [Nat.add_right_eq_self, Nat.add_right_cancel_iff, if_true, if_false,
    OfNat.ofNat_ne_zero, OfNat.ofNat_ne_one, byteOf_val, reduceCtorEq, Nat.reduceEqDiff]
  refine ⟨?_, ?_, ?_⟩ <;> omega

/-- Reading back a record that fits its C types gives the record. -/
theorem EEPROM_get_put_inRange (s : Store) (addr : Nat) (d : DeviceClaimConfigData)
    (h : d.InRange) : EEPROM_get (EEPROM_put s addr d) addr = d := by
  obtain ⟨h1, h2, h3⟩ := h
  rw [EEPROM_get_put]
  cases d
  simp only [DeviceClaimConfigData.mk.injEq] at *
  exact ⟨Nat.mod_eq_of_lt h1, Nat.mod_eq_of_lt h2, Nat.mod_eq_of_lt h3⟩

/-- Every record read from the store fits its C types. -/
theorem EEPROM_get_inRange (s : Store) (addr : Nat) : (EEPROM_get s addr).InRange := by
  simp only [EEPROM_get, DeviceClaimConfigData.InRange]
  have h0 := (s addr).isLt
  have h1 := (s (addr + 1)).isLt
  have h2 := (s (addr + 2)).isLt
  have h3 := (s (addr + 3)).isLt
  have h4 := (s (addr + 4)).isLt
  have h5 := (s (addr + 5)).isLt
  have h6 := (s (addr + 6)).isLt
  have h7 := (s (addr + 7)).isLt
  refine ⟨?_, ?_, ?_⟩ <;> omega

/-- Writing back the record just read leaves every byte as it was. -/
theorem EEPROM_put_get (s : Store) (addr : Nat) :
    EEPROM_put s addr (EEPROM_get s addr) = s := by
  funext i
  have h0 := (s addr).isLt
  have h1 := (s (addr + 1)).isLt
  have h2 := (s (addr + 2)).isLt
  have h3 := (s (addr + 3)).isLt
  have h4 := (s (addr + 4)).isLt
  have h5 := (s (addr + 5)).isLt
  have h6 := (s (addr + 6)).isLt
  have h7 := (s (addr + 7)).isLt
  simp only [EEPROM_put, EEPROM_get]
  split_ifs with c0 c1 c2 c3 c4 c5 c6 c7
  all_goals first
    | rfl
    | (subst_vars; apply Fin.ext; simp only [byteOf_val]; omega)

/-! ## Flags -/

theorem isClaimed_iff (dc : DeviceClaim) :
    isClaimed dc = true ↔ dc.configData.flags % 2 = 1 := by
  simp only [isClaimed, getFlag, CONFIG_FLAG_CLAIMED, Nat.and_one_is_mod, bne_iff_ne, ne_eq]
  omega

theorem isClaimed_eq_false_iff (dc : DeviceClaim) :
    isClaimed dc = false ↔ dc.configData.flags % 2 = 0 := by
  rw [← Bool.not_eq_true, isClaimed_iff]
  omega

theorem testBit_zero_iff (n : Nat) : n.testBit 0 = true ↔ n % 2 = 1 := by
  simp [Nat.testBit_zero]

theorem testBit_zero_eq_false_iff (n : Nat) : n.testBit 0 = false ↔ n % 2 = 0 := by
  rw [← Bool.not_eq_true, testBit_zero_iff]
  omega

theorem setFlag_claimed_true (dc : DeviceClaim) :
    setFlag CONFIG_FLAG_CLAIMED true dc =
      { dc with configData :=
          { dc.configData with flags := (dc.configData.flags ||| 1) % 65536 } } := rfl

theorem setFlag_claimed_false (dc : DeviceClaim) :
    setFlag CONFIG_FLAG_CLAIMED false dc =
      { dc with configData :=
          { dc.configData with flags := (dc.configData.flags &&& 65534) % 65536 } } := rfl

theorem or_one_mod (f : Nat) : (f ||| 1) % 65536 % 2 = 1 := by
  have h : (f ||| 1) % 2 = 1 := by simp [Nat.or_mod_two_eq_one]
  omega

theorem and_mask_mod (f : Nat) : (f &&& 65534) % 65536 % 2 = 0 := by
  have h : (f &&& 65534) % 2 = 0 := by
    by_contra hc
    have h1 : (f &&& 65534) % 2 = 1 := by omega
    rw [Nat.and_mod_two_eq_one] at h1
    omega
  omega

/-! ## `setup` -/

theorem setup_of_magic_ne (dc : DeviceClaim) (w : World)
    (h : (EEPROM_get w.eeprom dc.eepromAddr).magic ≠ CONFIG_MAGIC) :
    setup dc w =
      ({ dc with configData := { magic := CONFIG_MAGIC, flags := 0, reserved := 0 } },
       { w with eeprom := EEPROM_put w.eeprom dc.eepromAddr
                  { magic := CONFIG_MAGIC, flags := 0, reserved := 0 } }) := by
  simp [setup, readConfigData, writeConfigData, h, isClaimed, getFlag]

theorem setup_of_magic_eq (dc : DeviceClaim) (w : World)
    (h : (EEPROM_get w.eeprom dc.eepromAddr).magic = CONFIG_MAGIC) :
    setup dc w =
      (if (EEPROM_get w.eeprom dc.eepromAddr).flags % 2 = 1 then
        { dc with configData := EEPROM_get w.eeprom dc.eepromAddr, state := State.DONE }
       else { dc with configData := EEPROM_get w.eeprom dc.eepromAddr }, w) := by
  by_cases hc : (EEPROM_get w.eeprom dc.eepromAddr).flags % 2 = 1
  · have hcl : isClaimed { dc with configData := EEPROM_get w.eeprom dc.eepromAddr } = true :=
      (isClaimed_iff _).2 hc
    simp [setup, readConfigData, h, hcl, hc]
  · have hcl : isClaimed { dc with configData := EEPROM_get w.eeprom dc.eepromAddr } = false :=
      (isClaimed_eq_false_iff _).2 (by simp only at *; omega)
    simp [setup, readConfigData, h, hcl, hc]

/-! ## `loop` in the terminal states -/

theorem loop_of_DONE (connected : Bool) (now now2 : Nat) (dc : DeviceClaim) (w : World)
    (h : dc.state = State.DONE) : loop connected now now2 dc w = (dc, w) := by
  simp [loop, h]

theorem loops_of_DONE (ticks : List Tick) (s : DeviceClaim × World)
    (h : s.1.state = State.DONE) : loops ticks s = s := by
  induction ticks with
  | nil => rfl
  | cons t ts ih => simp [loops, loop_of_DONE t.connected t.now t.now2 s.1 s.2 h, ih]

theorem loops_append (l1 l2 : List Tick) (s : DeviceClaim × World) :
    loops (l1 ++ l2) s = loops l2 (loops l1 s) := by
  induction l1 generalizing s with
  | nil => rfl
  | cons a l ih => simp only [List.cons_append, loops]; exact ih _

/-! ## The cloud log -/

theorem published_append (w : World) (l : List CloudCall) :
    World.published { w with cloud := w.cloud ++ l } =
      w.published ++ World.published { w with cloud := l } := by
  simp [World.published, List.filterMap_append]

theorem subscriptions_append (w : World) (l : List CloudCall) :
    World.subscriptions { w with cloud := w.cloud ++ l } =
      w.subscriptions ++ World.subscriptions { w with cloud := l } := by
  simp [World.subscriptions, List.filterMap_append]

/-! ## `loop` while waiting after the connection -/

theorem millisSince_of_le (now stateTime : Nat) (h1 : stateTime ≤ now)
    (h2 : now < 4294967296) : millisSince now stateTime = now - stateTime := by
  unfold millisSince
  omega

theorem loops_CONNECT_WAIT_stay (ticks : List Tick) (dc : DeviceClaim) (w : World)
    (hstate : dc.state = State.CONNECT_WAIT)
    (hticks : ∀ x ∈ ticks, millisSince x.now dc.stateTime < dc.connectWaitMs) :
    loops ticks (dc, w) = (dc, w) := by
  induction ticks with
  | nil => rfl
  | cons t ts ih =>
    have ht := hticks t (List.mem_cons_self _ _)
    have hl : loop t.connected t.now t.now2 dc w = (dc, w) := by
      simp [loop, hstate, Nat.not_le.2 ht]
    simp only [loops, hl]
    exact ih fun x hx => hticks x (List.mem_cons_of_mem _ hx)

/-! ## `subscriptionHandler` -/

theorem suffix_snoc2 (l : List Char) (a b : Char) :
    ['/', '0'] <:+ l ++ [a, b] ↔ a = '/' ∧ b = '0' := by
  constructor
  · rintro ⟨t, ht⟩
    have h := List.append_inj_right' ht rfl
    simp only [List.cons.injEq, and_true] at h
    exact ⟨h.1.symm, h.2.symm⟩
  · rintro ⟨rfl, rfl⟩
    exact ⟨l, rfl⟩

theorem suffix_short (l : List Char) (h : l.length < 2) : ¬ (['/', '0'] <:+ l) := by
  intro hs
  have := hs.length_le
  simp at this
  omega

theorem exists_snoc2 (l : List Char) (h : 2 ≤ l.length) :
    ∃ p a b, l = p ++ [a, b] := by
  rcases List.eq_nil_or_concat l with rfl | ⟨l1, b, rfl⟩
  · simp at h
  · rcases List.eq_nil_or_concat l1 with rfl | ⟨l2, a, rfl⟩
    · simp at h
    · exact ⟨l2, a, b, by simp⟩

theorem charAt_snoc2 (e : String) (p : List Char) (a b : Char) (h : e.data = p ++ [a, b]) :
    charAt e (strlen e - 2) = some a ∧ charAt e (strlen e - 1) = some b := by
  simp only [charAt, strlen, h, List.length_append, List.length_cons, List.length_nil,
    List.append_assoc, List.cons_append, List.nil_append]
  constructor
  · rw [List.getElem?_append_right (by omega)]
    have : p.length + (0 + 1 + 1) - 2 - p.length = 0 := by omega
    rw [this]
    rfl
  · rw [List.getElem?_append_right (by omega)]
    have : p.length + (0 + 1 + 1) - 1 - p.length = 1 := by omega
    rw [this]
    rfl

/-- On a name ending in "/0" the handler reads inside the array, sets the
claimed bit, writes the record and moves to DONE. -/
theorem subscriptionHandler_of_suffix (eventName data : String) (dc : DeviceClaim) (w : World)
    (h : ['/', '0'] <:+ eventName.data) :
    subscriptionHandler eventName data dc w =
      some ({ dc with
              configData := { dc.configData with flags := (dc.configData.flags ||| 1) % 65536 }
              state := State.DONE },
            { w with
              eeprom := EEPROM_put w.eeprom dc.eepromAddr
                { dc.configData with flags := (dc.configData.flags ||| 1) % 65536 } }) := by
  have hlen : 2 ≤ strlen eventName := by
    by_contra hc
    exact suffix_short _ (by simpa [strlen] using hc) h
  obtain ⟨p, a, b, hp⟩ := exists_snoc2 eventName.data hlen
  obtain ⟨h1, h2⟩ := charAt_snoc2 eventName p a b hp
  rw [hp, suffix_snoc2] at h
  obtain ⟨rfl, rfl⟩ := h
  simp only [subscriptionHandler, ge_iff_le, hlen, if_true, h1, h2, setFlag_claimed_true,
    writeConfigData]

/-- On any other name the handler reads inside the array and changes nothing. -/
theorem subscriptionHandler_of_not_suffix (eventName data : String) (dc : DeviceClaim)
    (w : World) (h : ¬ (['/', '0'] <:+ eventName.data)) :
    subscriptionHandler eventName data dc w = some (dc, w) := by
  by_cases hlen : 2 ≤ strlen eventName
  · obtain ⟨p, a, b, hp⟩ := exists_snoc2 eventName.data hlen
    obtain ⟨h1, h2⟩ := charAt_snoc2 eventName p a b hp
    rw [hp, suffix_snoc2] at h
    simp only [subscriptionHandler, ge_iff_le, hlen, if_true, h1, h2]
    by_cases ha : a = '/'
    · have hb : b ≠ '0' := fun hb => h ⟨ha, hb⟩
      simp [ha, hb]
    · simp [ha]
  · simp [subscriptionHandler, hlen]

/-! ## The stored record follows the in-memory record -/

theorem setup_eepromAddr (dc : DeviceClaim) (w : World) :
    (setup dc w).1.eepromAddr = dc.eepromAddr := by
  by_cases h : (EEPROM_get w.eeprom dc.eepromAddr).magic = CONFIG_MAGIC
  · rw [setup_of_magic_eq dc w h]
    split_ifs <;> rfl
  · rw [setup_of_magic_ne dc w h]

theorem setup_persisted (dc : DeviceClaim) (w : World) : Persisted (setup dc w) := by
  by_cases h : (EEPROM_get w.eeprom dc.eepromAddr).magic = CONFIG_MAGIC
  · rw [setup_of_magic_eq dc w h]
    split_ifs <;> exact ⟨rfl, h⟩
  · rw [setup_of_magic_ne dc w h]
    exact ⟨EEPROM_get_put_inRange _ _ _ (by decide), rfl⟩

theorem loop_frame (connected : Bool) (now now2 : Nat) (dc : DeviceClaim) (w : World) :
    (loop connected now now2 dc w).1.configData = dc.configData ∧
    (loop connected now now2 dc w).1.eepromAddr = dc.eepromAddr ∧
    (loop connected now now2 dc w).2.eeprom = w.eeprom := by
  unfold loop
  cases dc.state <;> simp only <;> (try split_ifs) <;> simp

theorem Persisted.inRange {s : DeviceClaim × World} (h : Persisted s) :
    s.1.configData.InRange := by
  rw [← h.1]
  exact EEPROM_get_inRange _ _

theorem forceClaim_eq (dc : DeviceClaim) (w : World) :
    forceClaim dc w =
      ({ dc with
          configData := { dc.configData with flags := (dc.configData.flags &&& 65534) % 65536 }
          state := if dc.state = State.DONE ∨ dc.state = State.FAILURE then State.START
                   else dc.state },
       { w with
          eeprom := EEPROM_put w.eeprom dc.eepromAddr
            { dc.configData with flags := (dc.configData.flags &&& 65534) % 65536 } }) := by
  simp only [forceClaim, setFlag_claimed_false, writeConfigData]
  split_ifs <;> rfl

theorem call_persisted (c : Call) (s : DeviceClaim × World) (h : Persisted s) :
    ∃ s1, call c s = some s1 ∧ Persisted s1 ∧ s1.1.eepromAddr = s.1.eepromAddr := by
  have hr := h.inRange
  cases c with
  | loop connected now now2 =>
    obtain ⟨h1, h2, h3⟩ := loop_frame connected now now2 s.1 s.2
    refine ⟨_, rfl, ⟨?_, ?_⟩, h2⟩
    · rw [h1, h2, h3]
      exact h.1
    · rw [h1]
      exact h.2
  | subscriptionHandler eventName data =>
    by_cases hn : ['/', '0'] <:+ eventName.data
    · refine ⟨_, subscriptionHandler_of_suffix eventName data s.1 s.2 hn, ⟨?_, h.2⟩, rfl⟩
      exact EEPROM_get_put_inRange _ _ _ ⟨hr.1, Nat.mod_lt _ (by decide), hr.2.2⟩
    · exact ⟨_, subscriptionHandler_of_not_suffix eventName data s.1 s.2 hn, h, rfl⟩
  | forceClaim =>
    refine ⟨_, rfl, ?_, ?_⟩
    · rw [forceClaim_eq]
      exact ⟨EEPROM_get_put_inRange _ _ _ ⟨hr.1, Nat.mod_lt _ (by decide), hr.2.2⟩, h.2⟩
    · rw [forceClaim_eq]

theorem calls_persisted (cs : List Call) (s : DeviceClaim × World) (h : Persisted s) :
    ∃ s1, calls cs s = some s1 ∧ Persisted s1 ∧ s1.1.eepromAddr = s.1.eepromAddr := by
  induction cs generalizing s with
  | nil => exact ⟨s, rfl, h, rfl⟩
  | cons c cs ih =>
    obtain ⟨s1, h1, hp1, ha1⟩ := call_persisted c s h
    obtain ⟨s2, h2, hp2, ha2⟩ := ih s1 hp1
    refine ⟨s2, ?_, hp2, ha2.trans ha1⟩
    simp only [calls, h1, Option.some_bind, h2]

theorem calls_append (cs : List Call) (c : Call) (s : DeviceClaim × World) :
    calls (cs ++ [c]) s = (calls cs s).bind (call c) := by
  induction cs generalizing s with
  | nil =>
    simp only [List.nil_append, calls, Option.some_bind]
    cases call c s <;> rfl
  | cons a cs ih =>
    simp only [List.cons_append, calls]
    cases call a s with
    | none => rfl
    | some s1 => exact ih s1

/-- After a power cycle a new object reports DONE exactly when the stored
record is claimed. -/
theorem reboot_progress (s : DeviceClaim × World) (h : Persisted s) (fresh : DeviceClaim)
    (w2 : World) (hfresh : fresh.state = State.START)
    (haddr : fresh.eepromAddr = s.1.eepromAddr) (hw : w2.eeprom = s.2.eeprom) :
    getProgress (setup fresh w2).1 = Progress.DONE ↔ isClaimed s.1 = true := by
  have hrec : EEPROM_get w2.eeprom fresh.eepromAddr = s.1.configData := by
    rw [hw, haddr]
    exact h.1
  have hm : (EEPROM_get w2.eeprom fresh.eepromAddr).magic = CONFIG_MAGIC := by
    rw [hrec]
    exact h.2
  rw [setup_of_magic_eq fresh w2 hm, isClaimed_iff, hrec]
  by_cases hc : s.1.configData.flags % 2 = 1
  · simp [hc, getProgress]
  · simp [hc, getProgress, hfresh]

/-! ## Claims -/

/-- C1: when the record at the configured offset has a magic other than
0x750ca339, `setup()` leaves the in-memory record equal to
`{magic = 0x750ca339, flags = 0, reserved = 0}`, `isClaimed()` is false, and the
record stored at the configured offset afterwards is that same record. -/
theorem C1_setup_reinitializes (dc : DeviceClaim) (w : World)
    (h : (EEPROM_get w.eeprom dc.eepromAddr).magic ≠ 0x750ca339) :
    (setup dc w).1.configData = { magic := 0x750ca339, flags := 0, reserved := 0 } ∧
    isClaimed (setup dc w).1 = false ∧
    (setup dc w).1.eepromAddr = dc.eepromAddr ∧
    EEPROM_get (setup dc w).2.eeprom dc.eepromAddr = (setup dc w).1.configData := by
  rw [setup_of_magic_ne dc w h]
  refine ⟨rfl, (isClaimed_eq_false_iff _).2 rfl, rfl, ?_⟩
  exact EEPROM_get_put_inRange _ _ _ (by decide)

/-- Witness of C1 on a never-written store, all bytes 0xFF, and on an all-zero
store. -/
theorem C1_setup_reinitializes_witness :
    ((EEPROM_get (World.boot (fun _ => 255) "e00fce68").eeprom
        (DeviceClaim.new ⟨7, 7, 7⟩).eepromAddr).magic ≠ 0x750ca339 ∧
      (setup (DeviceClaim.new ⟨7, 7, 7⟩) (World.boot (fun _ => 255) "e00fce68")).1.configData
        = { magic := 0x750ca339, flags := 0, reserved := 0 }) ∧
    ((EEPROM_get (World.boot (fun _ => 0) "e00fce68").eeprom
        (DeviceClaim.new ⟨7, 7, 7⟩).eepromAddr).magic ≠ 0x750ca339 ∧
      isClaimed (setup (DeviceClaim.new ⟨7, 7, 7⟩) (World.boot (fun _ => 0) "e00fce68")).1
        = false) :=
  ⟨⟨by decide, (C1_setup_reinitializes _ _ (by decide)).1⟩,
   ⟨by decide, (C1_setup_reinitializes _ _ (by decide)).2.1⟩⟩

/-- C2: on a store whose record has magic 0x750ca339 and flag bit 0 set,
`setup()` in a world where nothing was published or subscribed leaves the state
DONE, `getProgress()` returns DONE, nothing is published and nothing is
subscribed; and after any number of `loop()` calls, under any connectivity and
clock readings, the state is still DONE and nothing has been published or
subscribed. -/
theorem C2_claimed_at_startup_is_done (dc : DeviceClaim) (eeprom : Store) (deviceID : String)
    (ticks : List Tick)
    (hmagic : (EEPROM_get eeprom dc.eepromAddr).magic = 0x750ca339)
    (hflag : (EEPROM_get eeprom dc.eepromAddr).flags.testBit 0 = true) :
    (setup dc (World.boot eeprom deviceID)).1.state = State.DONE ∧
    getProgress (setup dc (World.boot eeprom deviceID)).1 = Progress.DONE ∧
    (setup dc (World.boot eeprom deviceID)).2.published = [] ∧
    (setup dc (World.boot eeprom deviceID)).2.subscriptions = [] ∧
    (loops ticks (setup dc (World.boot eeprom deviceID))).1.state = State.DONE ∧
    getProgress (loops ticks (setup dc (World.boot eeprom deviceID))).1 = Progress.DONE ∧
    (loops ticks (setup dc (World.boot eeprom deviceID))).2.published = [] ∧
    (loops ticks (setup dc (World.boot eeprom deviceID))).2.subscriptions = [] := by
  have hs : setup dc (World.boot eeprom deviceID) =
      ({ dc with configData := EEPROM_get eeprom dc.eepromAddr, state := State.DONE },
       World.boot eeprom deviceID) := by
    rw [setup_of_magic_eq dc _ hmagic]
    simp only [World.boot]
    rw [if_pos ((testBit_zero_iff _).1 hflag)]
  rw [loops_of_DONE ticks _ (by rw [hs]), hs]
  exact ⟨rfl, rfl, rfl, rfl, rfl, rfl, rfl, rfl⟩

/-- Witness of C2: a store holding the claimed record at the default address
1998, and three ticks. -/
theorem C2_claimed_at_startup_is_done_witness :
    (EEPROM_get (EEPROM_put (fun _ => 255) 1998 ⟨0x750ca339, 1, 0⟩)
        (DeviceClaim.new ⟨0, 0, 0⟩).eepromAddr).magic = 0x750ca339 ∧
    (EEPROM_get (EEPROM_put (fun _ => 255) 1998 ⟨0x750ca339, 1, 0⟩)
        (DeviceClaim.new ⟨0, 0, 0⟩).eepromAddr).flags.testBit 0 = true ∧
    (loops [⟨true, 5, 5⟩, ⟨false, 9000, 9001⟩, ⟨true, 20000, 20000⟩]
      (setup (DeviceClaim.new ⟨0, 0, 0⟩)
        (World.boot (EEPROM_put (fun _ => 255) 1998 ⟨0x750ca339, 1, 0⟩) "e00fce68"))).1.state
      = State.DONE :=
  ⟨by decide, by decide,
   (C2_claimed_at_startup_is_done (DeviceClaim.new ⟨0, 0, 0⟩)
      (EEPROM_put (fun _ => 255) 1998 ⟨0x750ca339, 1, 0⟩) "e00fce68"
      [⟨true, 5, 5⟩, ⟨false, 9000, 9001⟩, ⟨true, 20000, 20000⟩]
      (by decide) (by decide)).2.2.2.2.1⟩

/-- C3: for every event name ending in the two characters "/0" and every data
payload, `subscriptionHandler` called in state CHECK_WAIT returns (without
reading outside the name), sets the state to DONE, sets bit 0 of the flags of
the in-memory record and writes that record to the store.  The result is a
function of the name, the record and the store only: the handler reads no
clock, and `stateTime` and `testWaitMs` pass through unchanged. -/
theorem C3_response_in_CHECK_WAIT_claims (eventName data : String) (dc : DeviceClaim)
    (w : World) (hname : ['/', '0'] <:+ eventName.data)
    (_hstate : dc.state = State.CHECK_WAIT) :
    ∃ dc1 w1, subscriptionHandler eventName data dc w = some (dc1, w1) ∧
      dc1.state = State.DONE ∧
      dc1.configData.flags.testBit 0 = true ∧
      isClaimed dc1 = true ∧
      dc1.configData.magic = dc.configData.magic ∧
      dc1.configData.reserved = dc.configData.reserved ∧
      dc1.stateTime = dc.stateTime ∧ dc1.testWaitMs = dc.testWaitMs ∧
      dc1.eepromAddr = dc.eepromAddr ∧
      w1.eeprom = EEPROM_put w.eeprom dc.eepromAddr dc1.configData ∧
      (EEPROM_get w1.eeprom dc.eepromAddr).flags.testBit 0 = true ∧
      (dc.configData.InRange → EEPROM_get w1.eeprom dc.eepromAddr = dc1.configData) ∧
      w1.cloud = w.cloud ∧ w1.deviceID = w.deviceID ∧
      w1.published = w.published ∧ w1.subscriptions = w.subscriptions := by
  refine ⟨_, _, subscriptionHandler_of_suffix eventName data dc w hname, rfl, ?_, ?_, rfl, rfl,
    rfl, rfl, rfl, rfl, ?_, ?_, rfl, rfl, rfl, rfl⟩
  · exact (testBit_zero_iff _).2 (or_one_mod _)
  · exact (isClaimed_iff _).2 (or_one_mod _)
  · rw [EEPROM_get_put]
    exact (testBit_zero_iff _).2 (by simpa using or_one_mod dc.configData.flags)
  · intro hr
    apply EEPROM_get_put_inRange
    exact ⟨hr.1, Nat.mod_lt _ (by decide), hr.2.2⟩

/-- Witness of C3: the response "e00fce68/hook-response/deviceTest/0" arriving
in CHECK_WAIT when the timeout has long passed. -/
theorem C3_response_in_CHECK_WAIT_claims_witness :
    ['/', '0'] <:+ ("e00fce68/hook-response/deviceTest/0" : String).data ∧
    ({ DeviceClaim.new ⟨0x750ca339, 0, 0⟩ with state := State.CHECK_WAIT }).state
      = State.CHECK_WAIT ∧
    ∃ dc1 w1,
      subscriptionHandler "e00fce68/hook-response/deviceTest/0" "Boron_1"
        { DeviceClaim.new ⟨0x750ca339, 0, 0⟩ with state := State.CHECK_WAIT }
        (World.boot (fun _ => 255) "e00fce68") = some (dc1, w1) ∧
      dc1.state = State.DONE ∧ isClaimed dc1 = true :=
  ⟨by decide, rfl,
   (C3_response_in_CHECK_WAIT_claims "e00fce68/hook-response/deviceTest/0" "Boron_1"
      { DeviceClaim.new ⟨0x750ca339, 0, 0⟩ with state := State.CHECK_WAIT }
      (World.boot (fun _ => 255) "e00fce68") (by decide) rfl).imp
     fun _ h => h.imp fun _ h => ⟨h.1, h.2.1, h.2.2.2.1⟩⟩

/-- C4: for every event name that does not end in "/0", the empty name and
the one-character names included, and in every workflow state,
`subscriptionHandler` returns without reading outside the name and leaves the
object (state, stateTime, in-memory record) and the world (stored record,
published events, subscriptions) exactly as they were. -/
theorem C4_other_events_ignored (eventName data : String) (dc : DeviceClaim) (w : World)
    (hname : ¬ (['/', '0'] <:+ eventName.data)) :
    subscriptionHandler eventName data dc w = some (dc, w) :=
  subscriptionHandler_of_not_suffix eventName data dc w hname

/-- Witness of C4: the empty name, the one-character name "0" and the name
"e00fce68/hook-response/deviceTest/1", in state CHECK_WAIT. -/
theorem C4_other_events_ignored_witness :
    (¬ (['/', '0'] <:+ ("" : String).data) ∧
      subscriptionHandler "" "x"
        { DeviceClaim.new ⟨0x750ca339, 0, 0⟩ with state := State.CHECK_WAIT }
        (World.boot (fun _ => 255) "e00fce68") =
      some ({ DeviceClaim.new ⟨0x750ca339, 0, 0⟩ with state := State.CHECK_WAIT },
            World.boot (fun _ => 255) "e00fce68")) ∧
    (¬ (['/', '0'] <:+ ("0" : String).data) ∧
      subscriptionHandler "0" "x"
        { DeviceClaim.new ⟨0x750ca339, 0, 0⟩ with state := State.CHECK_WAIT }
        (World.boot (fun _ => 255) "e00fce68") =
      some ({ DeviceClaim.new ⟨0x750ca339, 0, 0⟩ with state := State.CHECK_WAIT },
            World.boot (fun _ => 255) "e00fce68")) ∧
    (¬ (['/', '0'] <:+ ("e00fce68/hook-response/deviceTest/1" : String).data) ∧
      subscriptionHandler "e00fce68/hook-response/deviceTest/1" "x"
        { DeviceClaim.new ⟨0x750ca339, 0, 0⟩ with state := State.CHECK_WAIT }
        (World.boot (fun _ => 255) "e00fce68") =
      some ({ DeviceClaim.new ⟨0x750ca339, 0, 0⟩ with state := State.CHECK_WAIT },
            World.boot (fun _ => 255) "e00fce68")) :=
  ⟨⟨by decide, C4_other_events_ignored _ _ _ _ (by decide)⟩,
   ⟨by decide, C4_other_events_ignored _ _ _ _ (by decide)⟩,
   ⟨by decide, C4_other_events_ignored _ _ _ _ (by decide)⟩⟩

/-- C5: in state CHECK_WAIT a `loop()` call at clock reading `now` moves the
state to FAILURE, and `getProgress()` then returns FAILURE, when
`millis() - stateTime >= testWaitMs`, and otherwise leaves the state
CHECK_WAIT with `getProgress()` returning IN_PROGRESS.  In both cases nothing
else of the object changes (stateTime, the record and its claimed flag) and
the world (store, published events, subscriptions) is unchanged.  The
difference is the 32-bit unsigned one, which is `now - stateTime` when the
clock has not wrapped since `stateTime`.  The call reads the clock once and
does not consult the connectivity. -/
theorem C5_check_wait_timeout (connected : Bool) (now now2 : Nat) (dc : DeviceClaim)
    (w : World) (hstate : dc.state = State.CHECK_WAIT) :
    (dc.testWaitMs ≤ millisSince now dc.stateTime →
      loop connected now now2 dc w = ({ dc with state := State.FAILURE }, w) ∧
      getProgress (loop connected now now2 dc w).1 = Progress.FAILURE) ∧
    (millisSince now dc.stateTime < dc.testWaitMs →
      loop connected now now2 dc w = (dc, w) ∧
      getProgress (loop connected now now2 dc w).1 = Progress.IN_PROGRESS) ∧
    (dc.stateTime ≤ now → now < 4294967296 →
      millisSince now dc.stateTime = now - dc.stateTime) ∧
    (loop connected now now2 dc w).1.configData = dc.configData ∧
    isClaimed (loop connected now now2 dc w).1 = isClaimed dc ∧
    (loop connected now now2 dc w).1.stateTime = dc.stateTime ∧
    (loop connected now now2 dc w).2 = w ∧
    (loop connected now now2 dc w).2.published = w.published ∧
    (loop connected now now2 dc w).2.eeprom = w.eeprom := by
  have hfail : dc.testWaitMs ≤ millisSince now dc.stateTime →
      loop connected now now2 dc w = ({ dc with state := State.FAILURE }, w) := by
    intro h
    simp [loop, hstate, h]
  have hstay : millisSince now dc.stateTime < dc.testWaitMs →
      loop connected now now2 dc w = (dc, w) := by
    intro h
    simp [loop, hstate, Nat.not_le.2 h]
  refine ⟨?_, ?_, ?_, ?_⟩
  · intro h
    rw [hfail h]
    exact ⟨rfl, rfl⟩
  · intro h
    rw [hstay h]
    exact ⟨rfl, by simp [getProgress, hstate]⟩
  · intro h1 h2
    exact millisSince_of_le _ _ h1 h2
  · by_cases h : dc.testWaitMs ≤ millisSince now dc.stateTime
    · rw [hfail h]
      exact ⟨rfl, rfl, rfl, rfl, rfl, rfl⟩
    · rw [hstay (Nat.not_le.1 h)]
      exact ⟨rfl, rfl, rfl, rfl, rfl, rfl⟩

/-- Witness of C5: CHECK_WAIT entered at 1000 ms with the default 10000 ms
timeout; a tick at 11000 ms fails, a tick at 10999 ms does not. -/
theorem C5_check_wait_timeout_witness :
    ({ DeviceClaim.new ⟨0x750ca339, 0, 0⟩ with
        state := State.CHECK_WAIT, stateTime := 1000 }).state = State.CHECK_WAIT ∧
    getProgress (loop true 11000 11000
      { DeviceClaim.new ⟨0x750ca339, 0, 0⟩ with state := State.CHECK_WAIT, stateTime := 1000 }
      (World.boot (fun _ => 255) "e00fce68")).1 = Progress.FAILURE ∧
    getProgress (loop true 10999 10999
      { DeviceClaim.new ⟨0x750ca339, 0, 0⟩ with state := State.CHECK_WAIT, stateTime := 1000 }
      (World.boot (fun _ => 255) "e00fce68")).1 = Progress.IN_PROGRESS :=
  ⟨rfl,
   ((C5_check_wait_timeout true 11000 11000
      { DeviceClaim.new ⟨0x750ca339, 0, 0⟩ with state := State.CHECK_WAIT, stateTime := 1000 }
      (World.boot (fun _ => 255) "e00fce68") rfl).1 (by decide)).2,
   ((C5_check_wait_timeout true 10999 10999
      { DeviceClaim.new ⟨0x750ca339, 0, 0⟩ with state := State.CHECK_WAIT, stateTime := 1000 }
      (World.boot (fun _ => 255) "e00fce68") rfl).2.1 (by decide)).2⟩

/-- C6: starting in START, the first `loop()` call with the cloud connected,
at time `t0`, enters CONNECT_WAIT and publishes nothing; every later call at a
time `t` with `t - t0 < connectWaitMs` publishes nothing and stays in
CONNECT_WAIT; and the first call at a time `t` with `t - t0 >= connectWaitMs`
publishes exactly one event (name `claimEventName`, empty payload, private)
and sets the state to REQUEST_WAIT, stamping `stateTime` with the reading
taken after the publish.  The clock does not wrap: every reading is at least
`t0` (as non-decreasing readings are) and below 2^32.  The connectivity of the
later calls is not consulted. -/
theorem C6_claim_event_after_connect_wait (dc : DeviceClaim) (w : World) (t0 t0b : Nat)
    (ticks : List Tick) (last : Tick)
    (hstate : dc.state = State.START)
    (hticks : ∀ x ∈ ticks, t0 ≤ x.now ∧ x.now < 4294967296 ∧ x.now - t0 < dc.connectWaitMs)
    (hlast : t0 ≤ last.now ∧ last.now < 4294967296 ∧ dc.connectWaitMs ≤ last.now - t0) :
    loop true t0 t0b dc w = ({ dc with state := State.CONNECT_WAIT, stateTime := t0 }, w) ∧
    (∀ pre post, ticks = pre ++ post →
      loops pre (loop true t0 t0b dc w) =
        ({ dc with state := State.CONNECT_WAIT, stateTime := t0 }, w)) ∧
    (loops (ticks ++ [last]) (loop true t0 t0b dc w)).1 =
      { dc with state := State.REQUEST_WAIT, stateTime := last.now2 } ∧
    (loops (ticks ++ [last]) (loop true t0 t0b dc w)).2.cloud =
      w.cloud ++ [CloudCall.publish (Event.mk dc.claimEventName (some "") true)] ∧
    (loops (ticks ++ [last]) (loop true t0 t0b dc w)).2.published =
      w.published ++ [Event.mk dc.claimEventName (some "") true] ∧
    (loops (ticks ++ [last]) (loop true t0 t0b dc w)).2.subscriptions = w.subscriptions ∧
    (loops (ticks ++ [last]) (loop true t0 t0b dc w)).2.eeprom = w.eeprom := by
  have h1 : loop true t0 t0b dc w
      = ({ dc with state := State.CONNECT_WAIT, stateTime := t0 }, w) := by
    simp [loop, hstate]
  have hstay : ∀ pre post, ticks = pre ++ post →
      loops pre (loop true t0 t0b dc w) =
        ({ dc with state := State.CONNECT_WAIT, stateTime := t0 }, w) := by
    intro pre post hpp
    rw [h1]
    apply loops_CONNECT_WAIT_stay _ _ _ rfl
    intro x hx
    obtain ⟨hx1, hx2, hx3⟩ := hticks x (by rw [hpp]; exact List.mem_append_left _ hx)
    show millisSince x.now t0 < dc.connectWaitMs
    rw [millisSince_of_le _ _ hx1 hx2]
    exact hx3
  obtain ⟨ht1, ht2, ht3⟩ := hlast
  have hm : dc.connectWaitMs ≤ millisSince last.now t0 := by
    rw [millisSince_of_le _ _ ht1 ht2]
    exact ht3
  have hend : loops (ticks ++ [last]) (loop true t0 t0b dc w) =
      ({ dc with state := State.REQUEST_WAIT, stateTime := last.now2 },
       { w with
         cloud := w.cloud ++
           [CloudCall.publish (Event.mk dc.claimEventName (some "") true)] }) := by
    rw [loops_append, hstay ticks [] (by simp)]
    simp [loops, loop, hm]
  refine ⟨h1, hstay, ?_⟩
  rw [hend]
  refine ⟨rfl, rfl, ?_, ?_, rfl⟩
  · rw [published_append]
    rfl
  · rw [subscriptions_append]
    exact List.append_nil _

/-- Witness of C6: default settings (connectWaitMs = 2000), connection seen at
100 ms, ticks at 100, 1500 and 2099 ms, then a tick at 2100 ms. -/
theorem C6_claim_event_after_connect_wait_witness :
    (DeviceClaim.new ⟨0x750ca339, 0, 0⟩).state = State.START ∧
    (∀ x ∈ [Tick.mk true 100 100, Tick.mk false 1500 1500, Tick.mk true 2099 2099],
      100 ≤ x.now ∧ x.now < 4294967296 ∧
        x.now - 100 < (DeviceClaim.new ⟨0x750ca339, 0, 0⟩).connectWaitMs) ∧
    (100 ≤ (Tick.mk true 2100 2101).now ∧ (Tick.mk true 2100 2101).now < 4294967296 ∧
      (DeviceClaim.new ⟨0x750ca339, 0, 0⟩).connectWaitMs ≤ (Tick.mk true 2100 2101).now - 100) ∧
    (loops ([Tick.mk true 100 100, Tick.mk false 1500 1500, Tick.mk true 2099 2099]
          ++ [Tick.mk true 2100 2101])
      (loop true 100 100 (DeviceClaim.new ⟨0x750ca339, 0, 0⟩)
        (World.boot (fun _ => 255) "e00fce68"))).2.published
      = (World.boot (fun _ => 255) "e00fce68").published
          ++ [Event.mk (DeviceClaim.new ⟨0x750ca339, 0, 0⟩).claimEventName (some "") true] :=
  ⟨rfl, by decide, by decide,
   (C6_claim_event_after_connect_wait (DeviceClaim.new ⟨0x750ca339, 0, 0⟩)
       (World.boot (fun _ => 255) "e00fce68") 100 100
       [Tick.mk true 100 100, Tick.mk false 1500 1500, Tick.mk true 2099 2099]
       (Tick.mk true 2100 2101) rfl (by decide) (by decide)).2.2.2.2.1⟩

/-- C7: in every workflow state and for every record, `forceClaim()` clears
flag bit 0 of the in-memory record and writes the record to the store, so the
stored claimed bit is 0; the state afterwards is START if it was DONE or
FAILURE and is unchanged if it was any of the seven other states;
`forceClaim()` publishes nothing and subscribes to nothing. -/
theorem C7_forceClaim (dc : DeviceClaim) (w : World) :
    (forceClaim dc w).1.configData.flags.testBit 0 = false ∧
    isClaimed (forceClaim dc w).1 = false ∧
    (forceClaim dc w).1.configData.magic = dc.configData.magic ∧
    (forceClaim dc w).1.configData.reserved = dc.configData.reserved ∧
    (forceClaim dc w).2.eeprom =
      EEPROM_put w.eeprom dc.eepromAddr (forceClaim dc w).1.configData ∧
    (EEPROM_get (forceClaim dc w).2.eeprom dc.eepromAddr).flags.testBit 0 = false ∧
    (dc.configData.InRange →
      EEPROM_get (forceClaim dc w).2.eeprom dc.eepromAddr = (forceClaim dc w).1.configData) ∧
    (dc.state = State.DONE ∨ dc.state = State.FAILURE →
      (forceClaim dc w).1.state = State.START) ∧
    (dc.state ∈ [State.START, State.CONNECT_WAIT, State.REQUEST_WAIT, State.DISCONNECT_WAIT,
        State.RECONNECT_WAIT, State.CHECK_CLAIM, State.CHECK_WAIT] →
      (forceClaim dc w).1.state = dc.state) ∧
    (forceClaim dc w).2.cloud = w.cloud ∧
    (forceClaim dc w).2.published = w.published ∧
    (forceClaim dc w).2.subscriptions = w.subscriptions := by
  rw [forceClaim_eq]
  refine ⟨?_, ?_, rfl, rfl, rfl, ?_, ?_, ?_, ?_, rfl, rfl, rfl⟩
  · exact (testBit_zero_eq_false_iff _).2 (and_mask_mod _)
  · exact (isClaimed_eq_false_iff _).2 (and_mask_mod _)
  · rw [EEPROM_get_put]
    exact (testBit_zero_eq_false_iff _).2 (by simpa using and_mask_mod dc.configData.flags)
  · intro hr
    apply EEPROM_get_put_inRange
    exact ⟨hr.1, Nat.mod_lt _ (by decide), hr.2.2⟩
  · intro h
    simp [h]
  · intro h
    have h1 : dc.state ≠ State.DONE := by
      intro hc
      rw [hc] at h
      revert h
      decide
    have h2 : dc.state ≠ State.FAILURE := by
      intro hc
      rw [hc] at h
      revert h
      decide
    simp [h1, h2]

/-- Witness of C7: a claimed object in DONE goes back to START with the stored
claimed bit cleared; one in CONNECT_WAIT stays there. -/
theorem C7_forceClaim_witness :
    (forceClaim { DeviceClaim.new ⟨0x750ca339, 1, 0⟩ with state := State.DONE }
      (World.boot (EEPROM_put (fun _ => 255) 1998 ⟨0x750ca339, 1, 0⟩) "e00fce68")).1.state
      = State.START ∧
    (forceClaim { DeviceClaim.new ⟨0x750ca339, 1, 0⟩ with state := State.CONNECT_WAIT }
      (World.boot (EEPROM_put (fun _ => 255) 1998 ⟨0x750ca339, 1, 0⟩) "e00fce68")).1.state
      = State.CONNECT_WAIT ∧
    EEPROM_get (forceClaim { DeviceClaim.new ⟨0x750ca339, 1, 0⟩ with state := State.DONE }
      (World.boot (EEPROM_put (fun _ => 255) 1998 ⟨0x750ca339, 1, 0⟩) "e00fce68")).2.eeprom 1998
      = (forceClaim { DeviceClaim.new ⟨0x750ca339, 1, 0⟩ with state := State.DONE }
      (World.boot (EEPROM_put (fun _ => 255) 1998 ⟨0x750ca339, 1, 0⟩)
        "e00fce68")).1.configData :=
  ⟨(C7_forceClaim { DeviceClaim.new ⟨0x750ca339, 1, 0⟩ with state := State.DONE }
      (World.boot (EEPROM_put (fun _ => 255) 1998 ⟨0x750ca339, 1, 0⟩) "e00fce68")).2.2.2.2.2.2.2.1
      (Or.inl rfl),
   (C7_forceClaim { DeviceClaim.new ⟨0x750ca339, 1, 0⟩ with state := State.CONNECT_WAIT }
      (World.boot (EEPROM_put (fun _ => 255) 1998 ⟨0x750ca339, 1, 0⟩)
        "e00fce68")).2.2.2.2.2.2.2.2.1 (by decide),
   (C7_forceClaim { DeviceClaim.new ⟨0x750ca339, 1, 0⟩ with state := State.DONE }
      (World.boot (EEPROM_put (fun _ => 255) 1998 ⟨0x750ca339, 1, 0⟩) "e00fce68")).2.2.2.2.2.2.1
      (by decide)⟩

/-- C8: `getProgress()` returns DONE exactly when the state is DONE, FAILURE
exactly when the state is FAILURE, and IN_PROGRESS exactly in the seven other
states.  It is a function of the object alone and returns only the progress
value: it changes no field, does not touch the store and publishes nothing. -/
theorem C8_getProgress (dc : DeviceClaim) :
    (getProgress dc = Progress.DONE ↔ dc.state = State.DONE) ∧
    (getProgress dc = Progress.FAILURE ↔ dc.state = State.FAILURE) ∧
    (getProgress dc = Progress.IN_PROGRESS ↔
      dc.state ∈ [State.START, State.CONNECT_WAIT, State.REQUEST_WAIT, State.DISCONNECT_WAIT,
        State.RECONNECT_WAIT, State.CHECK_CLAIM, State.CHECK_WAIT]) := by
  unfold getProgress
  cases dc.state <;> simp

/-- C9: durability across a power cycle.  For every initial store and every
finite sequence of `loop()`, `subscriptionHandler(name, data)` and
`forceClaim()` calls made after `setup()`, the sequence runs to its end, and a
new object in state START with the same storage offset, running `setup()` on
the resulting store, reports `getProgress()` = DONE if and only if
`isClaimed()` was true on the old object at the end of the sequence.  It is
DONE when the sequence ended with a "/0" response and is not DONE when it
ended with `forceClaim()`. -/
theorem C9_durable_across_power_cycle (dc : DeviceClaim) (w : World) (cs : List Call)
    (fresh : DeviceClaim) (hfresh : fresh.state = State.START)
    (haddr : fresh.eepromAddr = dc.eepromAddr) :
    (∃ s, calls cs (setup dc w) = some s ∧
      ∀ w2 : World, w2.eeprom = s.2.eeprom →
        (getProgress (setup fresh w2).1 = Progress.DONE ↔ isClaimed s.1 = true)) ∧
    (∀ eventName data : String, ['/', '0'] <:+ eventName.data →
      ∃ s, calls (cs ++ [Call.subscriptionHandler eventName data]) (setup dc w) = some s ∧
        ∀ w2 : World, w2.eeprom = s.2.eeprom →
          getProgress (setup fresh w2).1 = Progress.DONE) ∧
    (∃ s, calls (cs ++ [Call.forceClaim]) (setup dc w) = some s ∧
      ∀ w2 : World, w2.eeprom = s.2.eeprom →
        getProgress (setup fresh w2).1 ≠ Progress.DONE) := by
  have key : ∀ l : List Call, ∃ s, calls l (setup dc w) = some s ∧ Persisted s ∧
      ∀ w2 : World, w2.eeprom = s.2.eeprom →
        (getProgress (setup fresh w2).1 = Progress.DONE ↔ isClaimed s.1 = true) := by
    intro l
    obtain ⟨s, hs, hp, ha⟩ := calls_persisted l (setup dc w) (setup_persisted dc w)
    refine ⟨s, hs, hp, fun w2 hw => reboot_progress s hp fresh w2 hfresh ?_ hw⟩
    rw [haddr, ha, setup_eepromAddr]
  obtain ⟨s0, hs0, hp0, -⟩ := key cs
  refine ⟨?_, ?_, ?_⟩
  · obtain ⟨s, hs, -, hiff⟩ := key cs
    exact ⟨s, hs, hiff⟩
  · intro eventName data hname
    obtain ⟨s, hs, -, hiff⟩ := key (cs ++ [Call.subscriptionHandler eventName data])
    refine ⟨s, hs, fun w2 hw => (hiff w2 hw).2 ?_⟩
    rw [calls_append, hs0, Option.some_bind] at hs
    simp only [call, subscriptionHandler_of_suffix eventName data s0.1 s0.2 hname,
      Option.some.injEq] at hs
    rw [← hs]
    exact (isClaimed_iff _).2 (or_one_mod _)
  · obtain ⟨s, hs, -, hiff⟩ := key (cs ++ [Call.forceClaim])
    refine ⟨s, hs, fun w2 hw hdone => ?_⟩
    have hcl := (hiff w2 hw).1 hdone
    rw [calls_append, hs0, Option.some_bind] at hs
    simp only [call, forceClaim_eq, Option.some.injEq] at hs
    rw [← hs, isClaimed_iff] at hcl
    have := and_mask_mod s0.1.configData.flags
    simp only at hcl
    omega

/-- Witness of C9: on a never-written store at address 1990, a handshake whose
response arrives, followed by a power cycle. -/
theorem C9_durable_across_power_cycle_witness :
    ((DeviceClaim.new ⟨0, 0, 0⟩).withEepromAddr 1990).state = State.START ∧
    ((DeviceClaim.new ⟨0, 0, 0⟩).withEepromAddr 1990).eepromAddr
      = ((DeviceClaim.new ⟨9, 9, 9⟩).withEepromAddr 1990).eepromAddr ∧
    ∃ s, calls ([Call.loop true 10 10, Call.loop true 2500 2501] ++
          [Call.subscriptionHandler "e00fce68/hook-response/deviceTest/0" "x"])
        (setup ((DeviceClaim.new ⟨9, 9, 9⟩).withEepromAddr 1990)
          (World.boot (fun _ => 255) "e00fce68")) = some s ∧
      ∀ w2 : World, w2.eeprom = s.2.eeprom →
        getProgress (setup ((DeviceClaim.new ⟨0, 0, 0⟩).withEepromAddr 1990) w2).1
          = Progress.DONE :=
  ⟨rfl, rfl,
   (C9_durable_across_power_cycle ((DeviceClaim.new ⟨9, 9, 9⟩).withEepromAddr 1990)
      (World.boot (fun _ => 255) "e00fce68")
      [Call.loop true 10 10, Call.loop true 2500 2501]
      ((DeviceClaim.new ⟨0, 0, 0⟩).withEepromAddr 1990) rfl rfl).2.1
      "e00fce68/hook-response/deviceTest/0" "x" (by decide)⟩

/-- C10: on a store whose 8 bytes at the configured offset hold a record with
magic 0x750ca339, reading the record with `readConfigData` and writing it back
unmodified with `writeConfigData` leaves every byte of the store as it was;
and `setup()` leaves the world unchanged and the in-memory record equal to the
stored one, flags and reserved field included. -/
theorem C10_load_save_roundtrip (dc : DeviceClaim) (w : World)
    (hmagic : (EEPROM_get w.eeprom dc.eepromAddr).magic = 0x750ca339) :
    (readConfigData dc w).1 = true ∧
    (writeConfigData dc (readConfigData dc w).2 w).1 = true ∧
    (∀ i : Nat, (writeConfigData dc (readConfigData dc w).2 w).2.eeprom i = w.eeprom i) ∧
    (writeConfigData dc (readConfigData dc w).2 w).2 = w ∧
    (setup dc w).2 = w ∧
    (setup dc w).1.configData = EEPROM_get w.eeprom dc.eepromAddr ∧
    (setup dc w).1.configData.magic = 0x750ca339 ∧
    (setup dc w).1.configData.flags = (EEPROM_get w.eeprom dc.eepromAddr).flags ∧
    (setup dc w).1.configData.reserved = (EEPROM_get w.eeprom dc.eepromAddr).reserved ∧
    EEPROM_get (setup dc w).2.eeprom dc.eepromAddr = (setup dc w).1.configData := by
  have hw : (writeConfigData dc (readConfigData dc w).2 w).2 = w := by
    simp only [writeConfigData, readConfigData, EEPROM_put_get]
  have hs2 : (setup dc w).2 = w := by
    rw [setup_of_magic_eq dc w hmagic]
  have hs1 : (setup dc w).1.configData = EEPROM_get w.eeprom dc.eepromAddr := by
    rw [setup_of_magic_eq dc w hmagic]
    split_ifs <;> rfl
  refine ⟨rfl, rfl, fun i => by rw [hw], hw, hs2, hs1, ?_, ?_, ?_, ?_⟩
  · rw [hs1]
    exact hmagic
  · rw [hs1]
  · rw [hs1]
  · rw [hs1, hs2]

/-- Witness of C10: a store holding magic 0x750ca339, flags 0xBEEE and
reserved 0x1234 at address 1998. -/
theorem C10_load_save_roundtrip_witness :
    (EEPROM_get (World.boot (EEPROM_put (fun _ => 255) 1998 ⟨0x750ca339, 0xBEEE, 0x1234⟩)
        "e00fce68").eeprom (DeviceClaim.new ⟨0, 0, 0⟩).eepromAddr).magic = 0x750ca339 ∧
    (setup (DeviceClaim.new ⟨0, 0, 0⟩)
        (World.boot (EEPROM_put (fun _ => 255) 1998 ⟨0x750ca339, 0xBEEE, 0x1234⟩)
          "e00fce68")).1.configData.flags = 0xBEEE ∧
    (setup (DeviceClaim.new ⟨0, 0, 0⟩)
        (World.boot (EEPROM_put (fun _ => 255) 1998 ⟨0x750ca339, 0xBEEE, 0x1234⟩)
          "e00fce68")).1.configData.reserved = 0x1234 :=
  ⟨by decide,
   (C10_load_save_roundtrip (DeviceClaim.new ⟨0, 0, 0⟩)
      (World.boot (EEPROM_put (fun _ => 255) 1998 ⟨0x750ca339, 0xBEEE, 0x1234⟩) "e00fce68")
      (by decide)).2.2.2.2.2.2.2.1.trans (by decide),
   (C10_load_save_roundtrip (DeviceClaim.new ⟨0, 0, 0⟩)
      (World.boot (EEPROM_put (fun _ => 255) 1998 ⟨0x750ca339, 0xBEEE, 0x1234⟩) "e00fce68")
      (by decide)).2.2.2.2.2.2.2.2.1.trans (by decide)⟩

/-! ## Flag bits in general -/

theorem testBit_65535 (i : Nat) : (65535 : Nat).testBit i = decide (i < 16) := by
  have h : (65535 : Nat) = 2 ^ 16 - 1 := by norm_num
  rw [h, Nat.testBit_two_pow_sub_one]

theorem testBit_mod_65536 (x i : Nat) :
    (x % 65536).testBit i = (decide (i < 16) && x.testBit i) := by
  have h : (65536 : Nat) = 2 ^ 16 := by norm_num
  rw [h, Nat.testBit_mod_two_pow]

/-- Bit `i` of the flags after `flags |= mask`. -/
theorem testBit_setFlag_true (mask i : Nat) (dc : DeviceClaim) :
    (setFlag mask true dc).configData.flags.testBit i =
      (decide (i < 16) && (dc.configData.flags.testBit i || mask.testBit i)) := by
  simp only [setFlag, if_true, testBit_mod_65536, Nat.testBit_or]

/-- Bit `i` of the flags after `flags &= ~mask`. -/
theorem testBit_setFlag_false (mask i : Nat) (dc : DeviceClaim) :
    (setFlag mask false dc).configData.flags.testBit i =
      (decide (i < 16) && (dc.configData.flags.testBit i && !mask.testBit i)) := by
  simp only [setFlag, Bool.false_eq_true, if_false, testBit_mod_65536, Nat.testBit_and,
    Nat.testBit_xor, testBit_65535]
  by_cases hi : i < 16
  · simp only [hi, decide_True, Bool.true_and]
    cases dc.configData.flags.testBit i <;> cases mask.testBit i <;> rfl
  · simp only [hi, decide_False, Bool.false_and]

theorem testBit_lt_65536 (f i : Nat) (hf : f < 65536) (hi : ¬ i < 16) : f.testBit i = false := by
  apply Nat.testBit_lt_two_pow
  calc f < 2 ^ 16 := hf
    _ ≤ 2 ^ i := Nat.pow_le_pow_right (by decide) (by omega)

theorem getFlag_setFlag_true (mask : Nat) (dc : DeviceClaim) (hmask : mask < 65536)
    (hne : mask ≠ 0) : getFlag mask (setFlag mask true dc) = true := by
  simp only [getFlag, bne_iff_ne, ne_eq]
  intro h
  apply hne
  apply Nat.eq_of_testBit_eq
  intro i
  have hi := congrArg (fun n => Nat.testBit n i) h
  simp only [Nat.testBit_and, testBit_setFlag_true, Nat.zero_testBit] at hi
  rw [Nat.zero_testBit]
  by_cases h16 : i < 16
  · simp only [h16, decide_True, Bool.true_and] at hi
    cases hm : mask.testBit i
    · rfl
    · rw [hm] at hi
      simp at hi
  · exact testBit_lt_65536 mask i hmask h16

theorem getFlag_setFlag_false (mask : Nat) (dc : DeviceClaim) :
    getFlag mask (setFlag mask false dc) = false := by
  have h : (setFlag mask false dc).configData.flags &&& mask = 0 := by
    apply Nat.eq_of_testBit_eq
    intro i
    simp only [Nat.testBit_and, testBit_setFlag_false, Nat.zero_testBit]
    cases decide (i < 16) <;> cases dc.configData.flags.testBit i <;> cases mask.testBit i <;> rfl
  simp [getFlag, h]

/-- C11: for every 16-bit flags value, every non-zero 16-bit mask and every
boolean `v`: after `setFlag(mask, v)`, `getFlag(mask)` returns `v` (true after
setting, false after clearing, for a single-bit mask and for any other
non-zero mask); every flag bit outside `mask`, the magic, the reserved field
and every other member of the object are unchanged, and the flags stay a
16-bit value.  `setFlag` maps an object to an object: it has no access to the
store. -/
theorem C11_setFlag_getFlag (dc : DeviceClaim) (mask : Nat) (v : Bool)
    (hflags : dc.configData.flags < 65536) (hmask : mask < 65536) (hne : mask ≠ 0) :
    getFlag mask (setFlag mask true dc) = true ∧
    getFlag mask (setFlag mask false dc) = false ∧
    getFlag mask (setFlag mask v dc) = v ∧
    (∀ i : Nat, mask.testBit i = false →
      (setFlag mask v dc).configData.flags.testBit i = dc.configData.flags.testBit i) ∧
    (setFlag mask v dc).configData.flags < 65536 ∧
    (setFlag mask v dc).configData.magic = dc.configData.magic ∧
    (setFlag mask v dc).configData.reserved = dc.configData.reserved ∧
    setFlag mask v dc =
      { dc with
        configData :=
          { dc.configData with flags := (setFlag mask v dc).configData.flags } } := by
  refine ⟨getFlag_setFlag_true mask dc hmask hne, getFlag_setFlag_false mask dc, ?_, ?_, ?_,
    ?_, ?_, ?_⟩
  · cases v
    · exact getFlag_setFlag_false mask dc
    · exact getFlag_setFlag_true mask dc hmask hne
  · intro i hi
    have hhigh : ¬ i < 16 → dc.configData.flags.testBit i = false :=
      testBit_lt_65536 _ i hflags
    cases v
    · rw [testBit_setFlag_false, hi]
      by_cases h16 : i < 16
      · simp [h16]
      · simp [h16, hhigh h16]
    · rw [testBit_setFlag_true, hi]
      by_cases h16 : i < 16
      · simp [h16]
      · simp [h16, hhigh h16]
  · cases v
    · exact Nat.mod_lt _ (by decide)
    · exact Nat.mod_lt _ (by decide)
  · cases v <;> rfl
  · cases v <;> rfl
  · cases v <;> rfl

/-- Witness of C11: flags 0xBEEE, the claimed mask and the two-bit mask 0x0003. -/
theorem C11_setFlag_getFlag_witness :
    ((DeviceClaim.new ⟨0x750ca339, 0xBEEE, 0⟩).configData.flags < 65536 ∧
      CONFIG_FLAG_CLAIMED < 65536 ∧ CONFIG_FLAG_CLAIMED ≠ 0) ∧
    getFlag CONFIG_FLAG_CLAIMED
      (setFlag CONFIG_FLAG_CLAIMED true (DeviceClaim.new ⟨0x750ca339, 0xBEEE, 0⟩)) = true ∧
    getFlag 3 (setFlag 3 false (DeviceClaim.new ⟨0x750ca339, 0xBEEE, 0⟩)) = false :=
  ⟨by decide,
   (C11_setFlag_getFlag (DeviceClaim.new ⟨0x750ca339, 0xBEEE, 0⟩) CONFIG_FLAG_CLAIMED true
      (by decide) (by decide) (by decide)).1,
   (C11_setFlag_getFlag (DeviceClaim.new ⟨0x750ca339, 0xBEEE, 0⟩) 3 false
      (by decide) (by decide) (by decide)).2.1⟩

/-! ## When `stateTime` is stamped -/

/-- The counterexample to C12 as stated: three operations that change `state`
and leave `stateTime` at its old value 1000 while the clock reads 11000.
`loop()` moves CHECK_WAIT to FAILURE, `subscriptionHandler` moves CHECK_WAIT to
DONE, and `forceClaim()` moves FAILURE to START. -/
theorem C12_stateTime_counterexample :
    ((loop true 11000 11000
        { DeviceClaim.new ⟨0x750ca339, 0, 0⟩ with state := State.CHECK_WAIT, stateTime := 1000 }
        (World.boot (fun _ => 255) "e00fce68")).1.state = State.FAILURE ∧
     (loop true 11000 11000
        { DeviceClaim.new ⟨0x750ca339, 0, 0⟩ with state := State.CHECK_WAIT, stateTime := 1000 }
        (World.boot (fun _ => 255) "e00fce68")).1.stateTime = 1000) ∧
    ((subscriptionHandler "e00fce68/hook-response/deviceTest/0" ""
        { DeviceClaim.new ⟨0x750ca339, 0, 0⟩ with state := State.CHECK_WAIT, stateTime := 1000 }
        (World.boot (fun _ => 255) "e00fce68")).map (fun r => (r.1.state, r.1.stateTime))
      = some (State.DONE, 1000)) ∧
    ((forceClaim
        { DeviceClaim.new ⟨0x750ca339, 0, 0⟩ with state := State.FAILURE, stateTime := 1000 }
        (World.boot (fun _ => 255) "e00fce68")).1.state = State.START ∧
     (forceClaim
        { DeviceClaim.new ⟨0x750ca339, 0, 0⟩ with state := State.FAILURE, stateTime := 1000 }
        (World.boot (fun _ => 255) "e00fce68")).1.stateTime = 1000) ∧
    (1000 : Nat) ≠ 11000 := by
  refine ⟨⟨by decide, by decide⟩, ?_, ⟨by decide, by decide⟩, by decide⟩
  rw [subscriptionHandler_of_suffix _ _ _ _ (by decide)]
  rfl

/-- C12, amended: every transition taken by `loop()` into a state other than
FAILURE sets `stateTime` to a clock reading of that call: the reading of its
one `millis()` call when leaving START, DISCONNECT_WAIT, RECONNECT_WAIT or
CHECK_CLAIM, and the reading taken after the publish when leaving CONNECT_WAIT
or REQUEST_WAIT.  The transition from CHECK_WAIT to FAILURE, every
`subscriptionHandler` call (the transition to DONE included) and every
`forceClaim()` call (the reset to START included) leave `stateTime`
unchanged. -/
theorem C12_stateTime_amended (connected : Bool) (now now2 : Nat) (eventName data : String)
    (dc : DeviceClaim) (w : World) :
    ((loop connected now now2 dc w).1.state ≠ dc.state →
      (dc.state ∈ [State.START, State.DISCONNECT_WAIT, State.RECONNECT_WAIT,
          State.CHECK_CLAIM] → (loop connected now now2 dc w).1.stateTime = now) ∧
      (dc.state ∈ [State.CONNECT_WAIT, State.REQUEST_WAIT] →
        (loop connected now now2 dc w).1.stateTime = now2) ∧
      (dc.state = State.CHECK_WAIT →
        (loop connected now now2 dc w).1.state = State.FAILURE ∧
        (loop connected now now2 dc w).1.stateTime = dc.stateTime) ∧
      dc.state ≠ State.FAILURE ∧ dc.state ≠ State.DONE) ∧
    (∃ r, subscriptionHandler eventName data dc w = some r ∧ r.1.stateTime = dc.stateTime) ∧
    (forceClaim dc w).1.stateTime = dc.stateTime := by
  refine ⟨?_, ?_, ?_⟩
  · unfold loop
    cases hs : dc.state <;> simp only <;> (try split_ifs) <;> simp [hs]
  · by_cases hn : ['/', '0'] <:+ eventName.data
    · exact ⟨_, subscriptionHandler_of_suffix eventName data dc w hn, rfl⟩
    · exact ⟨_, subscriptionHandler_of_not_suffix eventName data dc w hn, rfl⟩
  · rw [forceClaim_eq]

/-- Witness of C12 as amended: the tick that publishes the claim event stamps
`stateTime` with the reading taken after the publish. -/
theorem C12_stateTime_amended_witness :
    (loop true 2100 2101
      { DeviceClaim.new ⟨0x750ca339, 0, 0⟩ with state := State.CONNECT_WAIT, stateTime := 100 }
      (World.boot (fun _ => 255) "e00fce68")).1.stateTime = 2101 :=
  ((C12_stateTime_amended true 2100 2101 "" ""
      { DeviceClaim.new ⟨0x750ca339, 0, 0⟩ with state := State.CONNECT_WAIT, stateTime := 100 }
      (World.boot (fun _ => 255) "e00fce68")).1 (by decide)).2.1 (by decide)

/-! ## The order of the states -/

theorem State.rank_le_eight (st : State) : st.rank ≤ 8 := by
  cases st <;> decide

theorem loop_rank (connected : Bool) (now now2 : Nat) (dc : DeviceClaim) (w : World) :
    (loop connected now now2 dc w).1.state = dc.state ∨
      (loop connected now now2 dc w).1.state.rank = dc.state.rank + 1 := by
  unfold loop
  cases hs : dc.state <;> simp only <;> (try split_ifs) <;> simp [hs, State.rank]

theorem subscriptionHandler_state (eventName data : String) (dc : DeviceClaim) (w : World) :
    ∃ r, subscriptionHandler eventName data dc w = some r ∧
      (r.1.state = dc.state ∨ r.1.state = State.DONE) := by
  by_cases hn : ['/', '0'] <:+ eventName.data
  · exact ⟨_, subscriptionHandler_of_suffix eventName data dc w hn, Or.inr rfl⟩
  · exact ⟨_, subscriptionHandler_of_not_suffix eventName data dc w hn, Or.inl rfl⟩

theorem call_rank_le (c : Call) (s : DeviceClaim × World) (hc : c ≠ Call.forceClaim) :
    ∃ s1, call c s = some s1 ∧ s.1.state.rank ≤ s1.1.state.rank := by
  cases c with
  | loop connected now now2 =>
    refine ⟨_, rfl, ?_⟩
    rcases loop_rank connected now now2 s.1 s.2 with h | h
    · rw [h]
    · rw [h]
      exact Nat.le_succ _
  | subscriptionHandler eventName data =>
    obtain ⟨r, hr, h | h⟩ := subscriptionHandler_state eventName data s.1 s.2
    · exact ⟨r, hr, by rw [h]⟩
    · exact ⟨r, hr, by rw [h]; exact State.rank_le_eight _⟩
  | forceClaim => exact absurd rfl hc

theorem calls_rank_le (cs : List Call) (s : DeviceClaim × World)
    (hcs : ∀ c ∈ cs, c ≠ Call.forceClaim) :
    ∃ s1, calls cs s = some s1 ∧ s.1.state.rank ≤ s1.1.state.rank := by
  induction cs generalizing s with
  | nil => exact ⟨s, rfl, Nat.le_refl _⟩
  | cons c cs ih =>
    obtain ⟨s1, h1, hle1⟩ := call_rank_le c s (hcs c (List.mem_cons_self _ _))
    obtain ⟨s2, h2, hle2⟩ := ih s1 fun x hx => hcs x (List.mem_cons_of_mem _ hx)
    refine ⟨s2, ?_, Nat.le_trans hle1 hle2⟩
    simp only [calls, h1, Option.some_bind, h2]

theorem calls_append_list (l1 l2 : List Call) (s : DeviceClaim × World) :
    calls (l1 ++ l2) s = (calls l1 s).bind (calls l2) := by
  induction l1 generalizing s with
  | nil => rfl
  | cons a l ih =>
    simp only [List.cons_append, calls]
    cases call a s with
    | none => rfl
    | some s1 => exact ih s1

/-- C13: with the states ordered as declared (START < CONNECT_WAIT <
REQUEST_WAIT < DISCONNECT_WAIT < RECONNECT_WAIT < CHECK_CLAIM < CHECK_WAIT <
FAILURE < DONE), one `loop()` call leaves the state unchanged or moves it to
its immediate successor, never moves FAILURE or DONE and never enters DONE;
one `subscriptionHandler` call returns and leaves the state unchanged or moves
it to DONE.  Over any sequence of `loop()` and `subscriptionHandler` calls the
state never decreases, at the end or at any point on the way; `forceClaim()`
leaves the state unchanged or moves it to START, the latter from DONE or
FAILURE only. -/
theorem C13_state_order (connected : Bool) (now now2 : Nat) (eventName data : String)
    (dc : DeviceClaim) (w : World) :
    ((loop connected now now2 dc w).1.state = dc.state ∨
      (loop connected now now2 dc w).1.state.rank = dc.state.rank + 1) ∧
    (dc.state = State.FAILURE ∨ dc.state = State.DONE →
      (loop connected now now2 dc w).1.state = dc.state) ∧
    (dc.state ≠ State.DONE → (loop connected now now2 dc w).1.state ≠ State.DONE) ∧
    (∃ r, subscriptionHandler eventName data dc w = some r ∧
      (r.1.state = dc.state ∨ r.1.state = State.DONE)) ∧
    (∀ pre post : List Call, (∀ c ∈ pre ++ post, c ≠ Call.forceClaim) →
      ∃ s1 s2, calls pre (dc, w) = some s1 ∧ calls (pre ++ post) (dc, w) = some s2 ∧
        dc.state.rank ≤ s1.1.state.rank ∧ s1.1.state.rank ≤ s2.1.state.rank) ∧
    ((forceClaim dc w).1.state = dc.state ∨
      ((forceClaim dc w).1.state = State.START ∧
        (dc.state = State.DONE ∨ dc.state = State.FAILURE))) := by
  refine ⟨loop_rank connected now now2 dc w, ?_, ?_,
    subscriptionHandler_state eventName data dc w, ?_, ?_⟩
  · unfold loop
    rintro (h | h) <;> simp [h]
  · unfold loop
    cases hs : dc.state <;> simp only <;> (try split_ifs) <;> simp [hs]
  · intro pre post hno
    obtain ⟨s1, h1, hle1⟩ := calls_rank_le pre (dc, w)
      fun c hc => hno c (List.mem_append_left _ hc)
    obtain ⟨s2, h2, hle2⟩ := calls_rank_le post s1
      fun c hc => hno c (List.mem_append_right _ hc)
    refine ⟨s1, s2, h1, ?_, hle1, hle2⟩
    rw [calls_append_list, h1, Option.some_bind, h2]
  · rw [forceClaim_eq]
    by_cases h : dc.state = State.DONE ∨ dc.state = State.FAILURE
    · exact Or.inr ⟨by simp [h], h⟩
    · exact Or.inl (by simp [h])

/-- Witness of C13: a timeout in CHECK_WAIT followed by a late response; the
state goes from CHECK_WAIT to FAILURE to DONE and never back. -/
theorem C13_state_order_witness :
    ∃ s1 s2,
      calls [Call.loop true 11000 11000]
        ({ DeviceClaim.new ⟨0x750ca339, 0, 0⟩ with
            state := State.CHECK_WAIT, stateTime := 1000 },
         World.boot (fun _ => 255) "e00fce68") = some s1 ∧
      calls ([Call.loop true 11000 11000] ++ [Call.subscriptionHandler "a/0" ""])
        ({ DeviceClaim.new ⟨0x750ca339, 0, 0⟩ with
            state := State.CHECK_WAIT, stateTime := 1000 },
         World.boot (fun _ => 255) "e00fce68") = some s2 ∧
      State.CHECK_WAIT.rank ≤ s1.1.state.rank ∧ s1.1.state.rank ≤ s2.1.state.rank :=
  (C13_state_order true 0 0 "" ""
      { DeviceClaim.new ⟨0x750ca339, 0, 0⟩ with state := State.CHECK_WAIT, stateTime := 1000 }
      (World.boot (fun _ => 255) "e00fce68")).2.2.2.2.1
    [Call.loop true 11000 11000] [Call.subscriptionHandler "a/0" ""]
    (by
      intro c hc
      simp only [List.cons_append, List.nil_append, List.mem_cons, List.mem_singleton,
        List.mem_nil_iff, or_false] at hc
      rcases hc with rfl | rfl <;> exact Call.noConfusion)

/-! ## The first two ticks -/

/-- On a store that does not hold a claimed record, `setup()` changes only the
in-memory record and the stored bytes. -/
theorem setup_of_not_claimed (dc : DeviceClaim) (w : World)
    (h : ¬ ((EEPROM_get w.eeprom dc.eepromAddr).magic = CONFIG_MAGIC ∧
      (EEPROM_get w.eeprom dc.eepromAddr).flags.testBit 0 = true)) :
    ∃ cd e, setup dc w = ({ dc with configData := cd }, { w with eeprom := e }) := by
  by_cases hm : (EEPROM_get w.eeprom dc.eepromAddr).magic = CONFIG_MAGIC
  · have hb : ¬ (EEPROM_get w.eeprom dc.eepromAddr).flags % 2 = 1 := fun hb =>
      h ⟨hm, (testBit_zero_iff _).2 hb⟩
    exact ⟨_, w.eeprom, by rw [setup_of_magic_eq dc w hm, if_neg hb]⟩
  · exact ⟨_, _, setup_of_magic_ne dc w hm⟩

/-- The counterexample to C14 as stated: offset 1990, claim event name
"deviceClaim", connectWaitMs = 0, a never-written store.  After `setup()` and
one `loop()` call made with the cloud connected the state is CONNECT_WAIT and
no event has been published. -/
theorem C14_one_tick_counterexample :
    (loop true 5 5
      (setup ((((DeviceClaim.new ⟨0, 0, 0⟩).withEepromAddr 1990).withClaimEventName
          "deviceClaim").withConnectWaitMs 0) (World.boot (fun _ => 255) "e00fce68")).1
      (setup ((((DeviceClaim.new ⟨0, 0, 0⟩).withEepromAddr 1990).withClaimEventName
          "deviceClaim").withConnectWaitMs 0) (World.boot (fun _ => 255) "e00fce68")).2).1.state
      = State.CONNECT_WAIT ∧
    (loop true 5 5
      (setup ((((DeviceClaim.new ⟨0, 0, 0⟩).withEepromAddr 1990).withClaimEventName
          "deviceClaim").withConnectWaitMs 0) (World.boot (fun _ => 255) "e00fce68")).1
      (setup ((((DeviceClaim.new ⟨0, 0, 0⟩).withEepromAddr 1990).withClaimEventName
          "deviceClaim").withConnectWaitMs 0) (World.boot (fun _ => 255) "e00fce68")).2).2.published
      = [] ∧
    ¬ ((loop true 5 5
      (setup ((((DeviceClaim.new ⟨0, 0, 0⟩).withEepromAddr 1990).withClaimEventName
          "deviceClaim").withConnectWaitMs 0) (World.boot (fun _ => 255) "e00fce68")).1
      (setup ((((DeviceClaim.new ⟨0, 0, 0⟩).withEepromAddr 1990).withClaimEventName
          "deviceClaim").withConnectWaitMs 0) (World.boot (fun _ => 255) "e00fce68")).2).2.published
      = [Event.mk "deviceClaim" (some "") true]) := by
  have hs : setup ((((DeviceClaim.new ⟨0, 0, 0⟩).withEepromAddr 1990).withClaimEventName
      "deviceClaim").withConnectWaitMs 0) (World.boot (fun _ => 255) "e00fce68") =
      ({ (((DeviceClaim.new ⟨0, 0, 0⟩).withEepromAddr 1990).withClaimEventName
            "deviceClaim").withConnectWaitMs 0 with
          configData := { magic := CONFIG_MAGIC, flags := 0, reserved := 0 } },
       { World.boot (fun _ => 255) "e00fce68" with
          eeprom := EEPROM_put (fun _ => 255) 1990
            { magic := CONFIG_MAGIC, flags := 0, reserved := 0 } }) :=
    setup_of_magic_ne _ _ (by decide)
  rw [hs]
  exact ⟨rfl, rfl, by decide⟩

/-- C14, amended: with storage offset 1990, claim event name "deviceClaim" and
connectWaitMs = 0, on a device whose store does not hold a claimed record:
after `setup()` and one `loop()` call made with the cloud connected,
`getProgress()` returns IN_PROGRESS, the state is CONNECT_WAIT and nothing has
been published; after one more `loop()` call, at any clock reading and
connectivity, `getProgress()` returns IN_PROGRESS and the list of published
events consists of exactly one event, named "deviceClaim", with an empty
payload, private; no subscription is registered. -/
theorem C14_two_ticks_amended (dc : DeviceClaim) (eeprom : Store) (deviceID : String)
    (t1 t1b : Nat) (second : Tick)
    (hstate : dc.state = State.START) (haddr : dc.eepromAddr = 1990)
    (hname : dc.claimEventName = "deviceClaim") (hwait : dc.connectWaitMs = 0)
    (hnot : ¬ ((EEPROM_get eeprom 1990).magic = 0x750ca339 ∧
      (EEPROM_get eeprom 1990).flags.testBit 0 = true)) :
    getProgress (loops [Tick.mk true t1 t1b] (setup dc (World.boot eeprom deviceID))).1
      = Progress.IN_PROGRESS ∧
    (loops [Tick.mk true t1 t1b] (setup dc (World.boot eeprom deviceID))).1.state
      = State.CONNECT_WAIT ∧
    (loops [Tick.mk true t1 t1b] (setup dc (World.boot eeprom deviceID))).2.published = [] ∧
    getProgress (loops [Tick.mk true t1 t1b, second]
      (setup dc (World.boot eeprom deviceID))).1 = Progress.IN_PROGRESS ∧
    (loops [Tick.mk true t1 t1b, second] (setup dc (World.boot eeprom deviceID))).1.state
      = State.REQUEST_WAIT ∧
    (loops [Tick.mk true t1 t1b, second] (setup dc (World.boot eeprom deviceID))).2.published
      = [Event.mk "deviceClaim" (some "") true] ∧
    (loops [Tick.mk true t1 t1b, second]
      (setup dc (World.boot eeprom deviceID))).2.subscriptions = [] := by
  obtain ⟨cd, e, hs⟩ := setup_of_not_claimed dc (World.boot eeprom deviceID)
    (by rw [haddr]; exact hnot)
  rw [hs]
  have h1 : loops [Tick.mk true t1 t1b]
      ({ dc with configData := cd }, { World.boot eeprom deviceID with eeprom := e }) =
      ({ dc with configData := cd, state := State.CONNECT_WAIT, stateTime := t1 },
       { World.boot eeprom deviceID with eeprom := e }) := by
    simp [loops, loop, hstate]
  have h2 : loops [Tick.mk true t1 t1b, second]
      ({ dc with configData := cd }, { World.boot eeprom deviceID with eeprom := e }) =
      ({ dc with configData := cd, state := State.REQUEST_WAIT, stateTime := second.now2 },
       { World.boot eeprom deviceID with
          eeprom := e
          cloud := [CloudCall.publish (Event.mk "deviceClaim" (some "") true)] }) := by
    simp [loops, loop, hstate, hwait, hname, World.boot]
  rw [h1, h2]
  exact ⟨rfl, rfl, rfl, rfl, rfl, rfl, rfl⟩

/-- Witness of C14 as amended: the example configuration on a never-written
store, ticks at 5 ms and 6 ms. -/
theorem C14_two_ticks_amended_witness :
    ((((DeviceClaim.new ⟨0, 0, 0⟩).withEepromAddr 1990).withClaimEventName
        "deviceClaim").withConnectWaitMs 0).state = State.START ∧
    ¬ ((EEPROM_get (fun _ => 255) 1990).magic = 0x750ca339 ∧
      (EEPROM_get (fun _ => 255) 1990).flags.testBit 0 = true) ∧
    (loops [Tick.mk true 5 5, Tick.mk true 6 6]
      (setup ((((DeviceClaim.new ⟨0, 0, 0⟩).withEepromAddr 1990).withClaimEventName
          "deviceClaim").withConnectWaitMs 0)
        (World.boot (fun _ => 255) "e00fce68"))).2.published
      = [Event.mk "deviceClaim" (some "") true] :=
  ⟨rfl, by decide,
   (C14_two_ticks_amended
      ((((DeviceClaim.new ⟨0, 0, 0⟩).withEepromAddr 1990).withClaimEventName
        "deviceClaim").withConnectWaitMs 0)
      (fun _ => 255) "e00fce68" 5 5 (Tick.mk true 6 6) rfl rfl rfl rfl
      (by decide)).2.2.2.2.2.1⟩

/-- C15: the persistence invariant.  Once `setup()` has run, the record stored
at the configured offset equals the in-memory record and its magic is
0x750ca339; every `loop()` call, every `subscriptionHandler` call, matching or
not, and every `forceClaim()` call returns and preserves this, for all inputs,
and so does every sequence of such calls after `setup()`: at the end the
stored claimed bit is the in-memory claimed flag. -/
theorem C15_persistence_invariant (dc : DeviceClaim) (w : World) (connected : Bool)
    (now now2 : Nat) (eventName data : String) (cs : List Call) :
    Persisted (setup dc w) ∧
    (∀ s : DeviceClaim × World, Persisted s → Persisted (loop connected now now2 s.1 s.2)) ∧
    (∀ s : DeviceClaim × World, Persisted s →
      ∃ s1, subscriptionHandler eventName data s.1 s.2 = some s1 ∧ Persisted s1) ∧
    (∀ s : DeviceClaim × World, Persisted s → Persisted (forceClaim s.1 s.2)) ∧
    (∃ s, calls cs (setup dc w) = some s ∧ Persisted s ∧
      EEPROM_get s.2.eeprom s.1.eepromAddr = s.1.configData ∧
      (EEPROM_get s.2.eeprom s.1.eepromAddr).magic = 0x750ca339 ∧
      ((EEPROM_get s.2.eeprom s.1.eepromAddr).flags.testBit 0 = true ↔
        isClaimed s.1 = true)) := by
  refine ⟨setup_persisted dc w, ?_, ?_, ?_, ?_⟩
  · intro s hs
    obtain ⟨s1, h1, hp, -⟩ := call_persisted (Call.loop connected now now2) s hs
    simp only [call, Option.some.injEq] at h1
    rw [h1]
    exact hp
  · intro s hs
    obtain ⟨s1, h1, hp, -⟩ := call_persisted (Call.subscriptionHandler eventName data) s hs
    exact ⟨s1, h1, hp⟩
  · intro s hs
    obtain ⟨s1, h1, hp, -⟩ := call_persisted Call.forceClaim s hs
    simp only [call, Option.some.injEq] at h1
    rw [h1]
    exact hp
  · obtain ⟨s, h1, hp, -⟩ := calls_persisted cs (setup dc w) (setup_persisted dc w)
    refine ⟨s, h1, hp, hp.1, ?_, ?_⟩
    · rw [hp.1]
      exact hp.2
    · rw [hp.1, isClaimed_iff, testBit_zero_iff]

/-- Witness of C15: after `setup()` on a never-written store, a matching
response keeps the stored record equal to the in-memory one. -/
theorem C15_persistence_invariant_witness :
    ∃ s1, subscriptionHandler "a/0" ""
        (setup (DeviceClaim.new ⟨0, 0, 0⟩) (World.boot (fun _ => 255) "e00fce68")).1
        (setup (DeviceClaim.new ⟨0, 0, 0⟩) (World.boot (fun _ => 255) "e00fce68")).2
        = some s1 ∧ Persisted s1 :=
  (C15_persistence_invariant (DeviceClaim.new ⟨0, 0, 0⟩) (World.boot (fun _ => 255) "e00fce68")
      true 0 0 "a/0" "" []).2.2.1 _
    (C15_persistence_invariant (DeviceClaim.new ⟨0, 0, 0⟩)
      (World.boot (fun _ => 255) "e00fce68") true 0 0 "a/0" "" []).1

/-! ## The response channel name -/

theorem hookResponseName_of_fits (deviceID testEventName : String)
    (h : deviceID.length + 15 + testEventName.length ≤ 63) :
    hookResponseName deviceID testEventName = deviceID ++ "/hook-response/" ++ testEventName := by
  unfold hookResponseName
  have hlen : (deviceID ++ "/hook-response/" ++ testEventName).data.length ≤ 63 := by
    have h15 : ("/hook-response/" : String).length = 15 := by decide
    simp only [String.data_append, List.length_append]
    simp only [String.length] at h h15
    omega
  rw [List.take_of_length_le hlen]

/-- C16: in state CHECK_CLAIM, for every connectivity value and every clock
reading, one `loop()` call registers exactly one subscription (scope
MY_DEVICES) and then publishes exactly one private event named
`testEventName`, and sets the state to CHECK_WAIT.  Whenever
length(deviceId) + 15 + length(testEventName) <= 63, in particular for a
24-character device id and a test event name of at most 24 characters, the
subscribed name is exactly deviceId ++ "/hook-response/" ++ testEventName:
the 64-byte buffer does not truncate it. -/
theorem C16_check_claim (connected : Bool) (now now2 : Nat) (dc : DeviceClaim) (w : World)
    (hstate : dc.state = State.CHECK_CLAIM) :
    (loop connected now now2 dc w).1 =
      { dc with state := State.CHECK_WAIT, stateTime := now } ∧
    (loop connected now now2 dc w).2.cloud = w.cloud ++
      [CloudCall.subscribe
         (Subscription.mk (hookResponseName w.deviceID dc.testEventName) Scope.MY_DEVICES),
       CloudCall.publish (Event.mk dc.testEventName none true)] ∧
    (loop connected now now2 dc w).2.subscriptions = w.subscriptions ++
      [Subscription.mk (hookResponseName w.deviceID dc.testEventName) Scope.MY_DEVICES] ∧
    (loop connected now now2 dc w).2.published =
      w.published ++ [Event.mk dc.testEventName none true] ∧
    (loop connected now now2 dc w).2.eeprom = w.eeprom ∧
    (w.deviceID.length + 15 + dc.testEventName.length ≤ 63 →
      hookResponseName w.deviceID dc.testEventName =
        w.deviceID ++ "/hook-response/" ++ dc.testEventName) ∧
    (w.deviceID.length = 24 → dc.testEventName.length ≤ 24 →
      hookResponseName w.deviceID dc.testEventName =
        w.deviceID ++ "/hook-response/" ++ dc.testEventName) := by
  have hl : loop connected now now2 dc w =
      ({ dc with state := State.CHECK_WAIT, stateTime := now },
       { w with
         cloud := w.cloud ++
           [CloudCall.subscribe
              (Subscription.mk (hookResponseName w.deviceID dc.testEventName)
                Scope.MY_DEVICES),
            CloudCall.publish (Event.mk dc.testEventName none true)] }) := by
    simp [loop, hstate]
  rw [hl]
  refine ⟨rfl, rfl, ?_, ?_, rfl, hookResponseName_of_fits _ _, ?_⟩
  · rw [subscriptions_append]
    rfl
  · rw [published_append]
    rfl
  · intro h1 h2
    exact hookResponseName_of_fits _ _ (by omega)

/-- Witness of C16: a 24-character device id and the default test event name. -/
theorem C16_check_claim_witness :
    ({ DeviceClaim.new ⟨0x750ca339, 0, 0⟩ with state := State.CHECK_CLAIM }).state
      = State.CHECK_CLAIM ∧
    ("e00fce681234567890abcdef" : String).length + 15 + ("deviceTest" : String).length ≤ 63 ∧
    (loop true 7000 7000
      { DeviceClaim.new ⟨0x750ca339, 0, 0⟩ with state := State.CHECK_CLAIM }
      (World.boot (fun _ => 255) "e00fce681234567890abcdef")).2.cloud =
      (World.boot (fun _ => 255) "e00fce681234567890abcdef").cloud ++
      [CloudCall.subscribe
         (Subscription.mk
           (hookResponseName (World.boot (fun _ => 255) "e00fce681234567890abcdef").deviceID
             ({ DeviceClaim.new ⟨0x750ca339, 0, 0⟩ with
                 state := State.CHECK_CLAIM }).testEventName)
           Scope.MY_DEVICES),
       CloudCall.publish
         (Event.mk ({ DeviceClaim.new ⟨0x750ca339, 0, 0⟩ with
                       state := State.CHECK_CLAIM }).testEventName none true)] ∧
    hookResponseName (World.boot (fun _ => 255) "e00fce681234567890abcdef").deviceID
        ({ DeviceClaim.new ⟨0x750ca339, 0, 0⟩ with state := State.CHECK_CLAIM }).testEventName
      = (World.boot (fun _ => 255) "e00fce681234567890abcdef").deviceID ++ "/hook-response/" ++
        ({ DeviceClaim.new ⟨0x750ca339, 0, 0⟩ with
            state := State.CHECK_CLAIM }).testEventName :=
  ⟨rfl, by decide,
   (C16_check_claim true 7000 7000
      { DeviceClaim.new ⟨0x750ca339, 0, 0⟩ with state := State.CHECK_CLAIM }
      (World.boot (fun _ => 255) "e00fce681234567890abcdef") rfl).2.1,
   (C16_check_claim true 7000 7000
      { DeviceClaim.new ⟨0x750ca339, 0, 0⟩ with state := State.CHECK_CLAIM }
      (World.boot (fun _ => 255) "e00fce681234567890abcdef") rfl).2.2.2.2.2.1 (by decide)⟩

/-- C17: the three connectivity-gated states ignore the clock.  For every
clock reading and every `stateTime`, one `loop()` call in START moves to
CONNECT_WAIT if and only if the cloud is connected, in DISCONNECT_WAIT moves
to RECONNECT_WAIT if and only if the cloud is not connected, and in
RECONNECT_WAIT moves to CHECK_CLAIM if and only if the cloud is connected;
otherwise the object is unchanged, and in every case the world is unchanged,
so nothing is published.  There is no timeout out of DISCONNECT_WAIT: while
the cloud stays connected the state stays DISCONNECT_WAIT and `getProgress()`
stays IN_PROGRESS for any number of ticks at any clock readings. -/
theorem C17_connectivity_gated (connected : Bool) (now now2 : Nat) (dc : DeviceClaim)
    (w : World) (ticks : List Tick) :
    (dc.state = State.START →
      ((loop connected now now2 dc w).1.state = State.CONNECT_WAIT ↔ connected = true) ∧
      (connected = false → loop connected now now2 dc w = (dc, w)) ∧
      (loop connected now now2 dc w).2 = w) ∧
    (dc.state = State.DISCONNECT_WAIT →
      ((loop connected now now2 dc w).1.state = State.RECONNECT_WAIT ↔ connected = false) ∧
      (connected = true → loop connected now now2 dc w = (dc, w)) ∧
      (loop connected now now2 dc w).2 = w) ∧
    (dc.state = State.RECONNECT_WAIT →
      ((loop connected now now2 dc w).1.state = State.CHECK_CLAIM ↔ connected = true) ∧
      (connected = false → loop connected now now2 dc w = (dc, w)) ∧
      (loop connected now now2 dc w).2 = w) ∧
    (dc.state = State.DISCONNECT_WAIT → (∀ t ∈ ticks, t.connected = true) →
      loops ticks (dc, w) = (dc, w) ∧
      getProgress (loops ticks (dc, w)).1 = Progress.IN_PROGRESS) := by
  refine ⟨?_, ?_, ?_, ?_⟩
  · intro h
    cases connected <;> simp [loop, h]
  · intro h
    cases connected <;> simp [loop, h]
  · intro h
    cases connected <;> simp [loop, h]
  · intro h hconn
    have hstay : loops ticks (dc, w) = (dc, w) := by
      induction ticks with
      | nil => rfl
      | cons t ts ih =>
        have ht := hconn t (List.mem_cons_self _ _)
        have hl : loop t.connected t.now t.now2 dc w = (dc, w) := by
          simp [loop, h, ht]
        simp only [loops, hl]
        exact ih fun x hx => hconn x (List.mem_cons_of_mem _ hx)
    rw [hstay]
    exact ⟨rfl, by simp [getProgress, h]⟩

/-- Witness of C17: in DISCONNECT_WAIT with the cloud connected, ticks spread
over more than an hour leave the state where it is. -/
theorem C17_connectivity_gated_witness :
    ({ DeviceClaim.new ⟨0x750ca339, 0, 0⟩ with
        state := State.DISCONNECT_WAIT, stateTime := 5000 }).state = State.DISCONNECT_WAIT ∧
    (∀ t ∈ [Tick.mk true 5001 5001, Tick.mk true 60000 60000, Tick.mk true 4000000 4000000],
      t.connected = true) ∧
    getProgress (loops
      [Tick.mk true 5001 5001, Tick.mk true 60000 60000, Tick.mk true 4000000 4000000]
      ({ DeviceClaim.new ⟨0x750ca339, 0, 0⟩ with
          state := State.DISCONNECT_WAIT, stateTime := 5000 },
       World.boot (fun _ => 255) "e00fce68")).1 = Progress.IN_PROGRESS :=
  ⟨rfl, by decide,
   ((C17_connectivity_gated true 0 0
      { DeviceClaim.new ⟨0x750ca339, 0, 0⟩ with
          state := State.DISCONNECT_WAIT, stateTime := 5000 }
      (World.boot (fun _ => 255) "e00fce68")
      [Tick.mk true 5001 5001, Tick.mk true 60000 60000, Tick.mk true 4000000 4000000]).2.2.2
      rfl (by decide)).2⟩

/-! ## The cloud log of one handshake -/

theorem published_single (w : World) (e : Event) :
    World.published { w with cloud := [CloudCall.publish e] } = [e] := rfl

theorem loop_handshakeLog (connected : Bool) (now now2 : Nat) (w0 : World) (n1 n2 : String)
    (s : DeviceClaim × World) (h : HandshakeLog w0 n1 n2 s) :
    HandshakeLog w0 n1 n2 (loop connected now now2 s.1 s.2) := by
  obtain ⟨dc, w⟩ := s
  obtain ⟨hn1, hn2, k, subs, hpub, hsub, hlen, hst⟩ := h
  simp only at hn1 hn2 hpub hsub hst
  unfold loop
  cases hs : dc.state
  all_goals simp only [hs, ne_eq, reduceCtorEq, not_false_eq_true, State.publishedCount,
    State.rank, forall_const] at hst
  all_goals simp only
  all_goals (try split_ifs)
  all_goals first
    | exact ⟨hn1, hn2, k, subs, hpub, hsub, hlen,
        by simp [hs, State.publishedCount, State.rank, hst]⟩
    | skip
  · obtain ⟨rfl, hsubs⟩ := hst
    refine ⟨hn1, hn2, 1, subs, ?_, ?_, hlen, ?_⟩
    · rw [published_append, hpub, published_single, hn1, List.append_assoc]
      rfl
    · rw [subscriptions_append, hsub]
      exact List.append_nil _
    · intro _
      exact ⟨rfl, fun _ => hsubs (by decide)⟩
  · obtain ⟨rfl, hsubs⟩ := hst
    refine ⟨hn1, hn2, 2, subs, ?_, ?_, hlen, ?_⟩
    · rw [published_append, hpub, published_single, List.append_assoc]
      rfl
    · rw [subscriptions_append, hsub]
      exact List.append_nil _
    · intro _
      exact ⟨rfl, fun _ => hsubs (by decide)⟩
  · obtain ⟨rfl, hsubs⟩ := hst
    refine ⟨hn1, hn2, 3,
      [Subscription.mk (hookResponseName w.deviceID dc.testEventName) Scope.MY_DEVICES],
      ?_, ?_, Nat.le_refl _, ?_⟩
    · rw [published_append, hpub, hn2, List.append_assoc]
      rfl
    · rw [subscriptions_append, hsub, hsubs (by decide), List.append_nil]
      rfl
    · intro _
      refine ⟨rfl, fun h => ?_⟩
      simp [State.rank] at h

theorem subscriptionHandler_handshakeLog (eventName data : String) (w0 : World)
    (n1 n2 : String) (s : DeviceClaim × World) (h : HandshakeLog w0 n1 n2 s) :
    ∃ s1, subscriptionHandler eventName data s.1 s.2 = some s1 ∧ HandshakeLog w0 n1 n2 s1 := by
  by_cases hn : ['/', '0'] <:+ eventName.data
  · refine ⟨_, subscriptionHandler_of_suffix eventName data s.1 s.2 hn, ?_⟩
    obtain ⟨hn1, hn2, k, subs, hpub, hsub, hlen, -⟩ := h
    exact ⟨hn1, hn2, k, subs, hpub, hsub, hlen, fun hd => absurd rfl hd⟩
  · exact ⟨_, subscriptionHandler_of_not_suffix eventName data s.1 s.2 hn, h⟩

theorem calls_handshakeLog (cs : List Call) (w0 : World) (n1 n2 : String)
    (s : DeviceClaim × World) (hcs : ∀ c ∈ cs, c ≠ Call.forceClaim)
    (h : HandshakeLog w0 n1 n2 s) :
    ∃ s1, calls cs s = some s1 ∧ HandshakeLog w0 n1 n2 s1 := by
  induction cs generalizing s with
  | nil => exact ⟨s, rfl, h⟩
  | cons c cs ih =>
    have hc := hcs c (List.mem_cons_self _ _)
    have hrest : ∀ x ∈ cs, x ≠ Call.forceClaim := fun x hx => hcs x (List.mem_cons_of_mem _ hx)
    cases c with
    | loop connected now now2 =>
      obtain ⟨s2, h2, hl2⟩ := ih _ hrest (loop_handshakeLog connected now now2 w0 n1 n2 s h)
      exact ⟨s2, by simp only [calls, call, Option.some_bind, h2], hl2⟩
    | subscriptionHandler eventName data =>
      obtain ⟨s1, h1, hl1⟩ := subscriptionHandler_handshakeLog eventName data w0 n1 n2 s h
      obtain ⟨s2, h2, hl2⟩ := ih s1 hrest hl1
      exact ⟨s2, by simp only [calls, call, h1, Option.some_bind, h2], hl2⟩
    | forceClaim => exact absurd rfl hc

/-- C18: for every finite sequence of `loop()` and `subscriptionHandler` calls
(no `forceClaim()`) starting in START, under any connectivity and clock
readings and any event names, the sequence runs to its end and the list of
events it has published is an initial segment of [claimEventName with empty
payload, "spark/device/session/end" with empty payload, testEventName], all
private, and it has registered at most one subscription: within one handshake
each event is published at most once and always in this order.  When nothing
was published or subscribed before, these are all the published events and
all the subscriptions. -/
theorem C18_publish_order (dc : DeviceClaim) (w : World) (cs : List Call)
    (hstate : dc.state = State.START) (hcs : ∀ c ∈ cs, c ≠ Call.forceClaim) :
    ∃ s events subs, calls cs (dc, w) = some s ∧
      s.2.published = w.published ++ events ∧
      events <+:
        [Event.mk dc.claimEventName (some "") true,
         Event.mk "spark/device/session/end" (some "") true,
         Event.mk dc.testEventName none true] ∧
      (∀ e ∈ events, e.isPrivate = true) ∧
      s.2.subscriptions = w.subscriptions ++ subs ∧ subs.length ≤ 1 ∧
      (w.cloud = [] →
        s.2.published <+:
          [Event.mk dc.claimEventName (some "") true,
           Event.mk "spark/device/session/end" (some "") true,
           Event.mk dc.testEventName none true] ∧
        (∀ e ∈ s.2.published, e.isPrivate = true) ∧
        s.2.subscriptions.length ≤ 1) := by
  have h0 : HandshakeLog w dc.claimEventName dc.testEventName (dc, w) := by
    refine ⟨rfl, rfl, 0, [], ?_, ?_, Nat.zero_le _, ?_⟩
    · simp
    · simp
    · intro _
      exact ⟨by simp [hstate, State.publishedCount], fun _ => rfl⟩
  obtain ⟨s, hs, -, -, k, subs, hpub, hsub, hlen, -⟩ :=
    calls_handshakeLog cs w dc.claimEventName dc.testEventName (dc, w) hcs h0
  have hpre : (handshakeEvents dc.claimEventName dc.testEventName).take k <+:
      [Event.mk dc.claimEventName (some "") true,
       Event.mk "spark/device/session/end" (some "") true,
       Event.mk dc.testEventName none true] :=
    ⟨List.drop k (handshakeEvents dc.claimEventName dc.testEventName),
      List.take_append_drop k _⟩
  have hpriv : ∀ e ∈ (handshakeEvents dc.claimEventName dc.testEventName).take k,
      e.isPrivate = true := by
    intro e he
    have hmem := List.mem_of_mem_take he
    simp only [handshakeEvents, List.mem_cons, List.mem_singleton, List.mem_nil_iff,
      or_false] at hmem
    rcases hmem with rfl | rfl | rfl <;> rfl
  refine ⟨s, _, subs, hs, hpub, hpre, hpriv, hsub, hlen, ?_⟩
  intro hfresh
  have hp0 : w.published = [] := by simp [World.published, hfresh]
  have hs0 : w.subscriptions = [] := by simp [World.subscriptions, hfresh]
  rw [hpub, hsub, hp0, hs0, List.nil_append, List.nil_append]
  exact ⟨hpre, hpriv, hlen⟩

/-- Witness of C18: a handshake run up to the session-end event, with a
response that does not match arriving on the way. -/
theorem C18_publish_order_witness :
    (DeviceClaim.new ⟨0x750ca339, 0, 0⟩).state = State.START ∧
    (World.boot (fun _ => 255) "e00fce68").cloud = [] ∧
    ∃ s, calls [Call.loop true 0 0, Call.loop true 2000 2000,
          Call.subscriptionHandler "a/1" "", Call.loop true 5000 5000]
        (DeviceClaim.new ⟨0x750ca339, 0, 0⟩, World.boot (fun _ => 255) "e00fce68") = some s ∧
      s.2.published <+:
        [Event.mk (DeviceClaim.new ⟨0x750ca339, 0, 0⟩).claimEventName (some "") true,
         Event.mk "spark/device/session/end" (some "") true,
         Event.mk (DeviceClaim.new ⟨0x750ca339, 0, 0⟩).testEventName none true] ∧
      (∀ e ∈ s.2.published, e.isPrivate = true) ∧
      s.2.subscriptions.length ≤ 1 :=
  ⟨rfl, rfl,
   (C18_publish_order (DeviceClaim.new ⟨0x750ca339, 0, 0⟩)
     (World.boot (fun _ => 255) "e00fce68")
     [Call.loop true 0 0, Call.loop true 2000 2000,
      Call.subscriptionHandler "a/1" "", Call.loop true 5000 5000] rfl
     (by
       intro c hc
       simp only [List.mem_cons, List.mem_singleton, List.mem_nil_iff, or_false] at hc
       rcases hc with rfl | rfl | rfl | rfl <;> exact Call.noConfusion)).elim
     fun s h => h.elim fun _ h => h.elim fun _ h => ⟨s, h.1, h.2.2.2.2.2.2 rfl⟩⟩

/-! ## Clock wrap-around -/

theorem millisSince_add (s d : Nat) (hd : d < 4294967296) :
    millisSince ((s + d) % 4294967296) s = d := by
  unfold millisSince
  omega

/-- C19: the dwell-time checks are correct across clock wrap-around.  For
every `stateTime` `s`, every wait and every true elapsed time `d < 2^32`, when
the clock reads `(s + d) mod 2^32` the value of `millis() - stateTime` is `d`,
so the condition `(millis() - stateTime) >= wait` is true if and only if
`d >= wait`, and `loop()` leaves CONNECT_WAIT, REQUEST_WAIT and CHECK_WAIT
exactly then. -/
theorem C19_dwell_time_wraparound (s d wait : Nat) (connected : Bool) (now2 : Nat)
    (dc : DeviceClaim) (w : World) (hd : d < 4294967296) (hs : dc.stateTime = s) :
    millisSince ((s + d) % 4294967296) s = d ∧
    (wait ≤ millisSince ((s + d) % 4294967296) s ↔ wait ≤ d) ∧
    (dc.state = State.CONNECT_WAIT →
      ((loop connected ((s + d) % 4294967296) now2 dc w).1.state = State.REQUEST_WAIT ↔
        dc.connectWaitMs ≤ d) ∧
      ((loop connected ((s + d) % 4294967296) now2 dc w).1.state = State.CONNECT_WAIT ↔
        d < dc.connectWaitMs)) ∧
    (dc.state = State.REQUEST_WAIT →
      ((loop connected ((s + d) % 4294967296) now2 dc w).1.state = State.DISCONNECT_WAIT ↔
        dc.claimRequestWaitMs ≤ d) ∧
      ((loop connected ((s + d) % 4294967296) now2 dc w).1.state = State.REQUEST_WAIT ↔
        d < dc.claimRequestWaitMs)) ∧
    (dc.state = State.CHECK_WAIT →
      ((loop connected ((s + d) % 4294967296) now2 dc w).1.state = State.FAILURE ↔
        dc.testWaitMs ≤ d) ∧
      ((loop connected ((s + d) % 4294967296) now2 dc w).1.state = State.CHECK_WAIT ↔
        d < dc.testWaitMs)) := by
  have hm := millisSince_add s d hd
  refine ⟨hm, by rw [hm], ?_, ?_, ?_⟩
  · intro hst
    by_cases hc : dc.connectWaitMs ≤ d
    · simp [loop, hst, hs, hm, hc]
    · simp [loop, hst, hs, hm, hc]
      omega
  · intro hst
    by_cases hc : dc.claimRequestWaitMs ≤ d
    · simp [loop, hst, hs, hm, hc]
    · simp [loop, hst, hs, hm, hc]
      omega
  · intro hst
    by_cases hc : dc.testWaitMs ≤ d
    · simp [loop, hst, hs, hm, hc]
    · simp [loop, hst, hs, hm, hc]
      omega

/-- Witness of C19: CHECK_WAIT entered 5000 ms before the clock wraps; 9999 ms
later the clock reads 4999 and the 10000 ms timeout has not passed, one
millisecond later it has. -/
theorem C19_dwell_time_wraparound_witness :
    (9999 : Nat) < 4294967296 ∧ (4294962296 + 9999) % 4294967296 = 4999 ∧
    ((loop true ((4294962296 + 9999) % 4294967296) 0
        { DeviceClaim.new ⟨0x750ca339, 0, 0⟩ with
            state := State.CHECK_WAIT, stateTime := 4294962296 }
        (World.boot (fun _ => 255) "e00fce68")).1.state = State.CHECK_WAIT) ∧
    ((loop true ((4294962296 + 10000) % 4294967296) 0
        { DeviceClaim.new ⟨0x750ca339, 0, 0⟩ with
            state := State.CHECK_WAIT, stateTime := 4294962296 }
        (World.boot (fun _ => 255) "e00fce68")).1.state = State.FAILURE) :=
  ⟨by decide, by decide,
   ((C19_dwell_time_wraparound 4294962296 9999 0 true 0
      { DeviceClaim.new ⟨0x750ca339, 0, 0⟩ with
          state := State.CHECK_WAIT, stateTime := 4294962296 }
      (World.boot (fun _ => 255) "e00fce68") (by decide) rfl).2.2.2.2 rfl).2.2 (by decide),
   ((C19_dwell_time_wraparound 4294962296 10000 0 true 0
      { DeviceClaim.new ⟨0x750ca339, 0, 0⟩ with
          state := State.CHECK_WAIT, stateTime := 4294962296 }
      (World.boot (fun _ => 255) "e00fce68") (by decide) rfl).2.2.2.2 rfl).1.2 (by decide)⟩

/-! ## A response and the timeout, in either order -/

/-- C20: a verification response wins over the timeout in either order.  For
every object in CHECK_WAIT, every clock reading and every event name ending
in "/0", `loop()` followed by `subscriptionHandler` gives exactly the same
object and world as `subscriptionHandler` followed by `loop()`: state DONE,
the same `stateTime`, the claimed flag set, the record written to the store,
nothing published.  In particular, when the timeout has already moved the
state to FAILURE, the response still moves it to DONE and persists the claimed
flag. -/
theorem C20_response_and_timeout_commute (connected : Bool) (now now2 : Nat)
    (eventName data : String) (dc : DeviceClaim) (w : World)
    (hstate : dc.state = State.CHECK_WAIT) (hname : ['/', '0'] <:+ eventName.data) :
    ∃ s, calls [Call.loop connected now now2, Call.subscriptionHandler eventName data] (dc, w)
          = some s ∧
      calls [Call.subscriptionHandler eventName data, Call.loop connected now now2] (dc, w)
          = some s ∧
      s.1.state = State.DONE ∧ s.1.stateTime = dc.stateTime ∧ isClaimed s.1 = true ∧
      s.2.eeprom = EEPROM_put w.eeprom dc.eepromAddr s.1.configData ∧
      (EEPROM_get s.2.eeprom dc.eepromAddr).flags.testBit 0 = true ∧
      s.2.cloud = w.cloud ∧ s.2.published = w.published ∧
      (dc.testWaitMs ≤ millisSince now dc.stateTime →
        (loop connected now now2 dc w).1.state = State.FAILURE ∧
        subscriptionHandler eventName data (loop connected now now2 dc w).1
          (loop connected now now2 dc w).2 = some s) := by
  have hl : loop connected now now2 dc w = (dc, w) ∨
      loop connected now now2 dc w = ({ dc with state := State.FAILURE }, w) := by
    by_cases h : dc.testWaitMs ≤ millisSince now dc.stateTime
    · exact Or.inr (by simp [loop, hstate, h])
    · exact Or.inl (by simp [loop, hstate, h])
  have hfirst : subscriptionHandler eventName data (loop connected now now2 dc w).1
      (loop connected now now2 dc w).2 =
      some ({ dc with
              configData := { dc.configData with flags := (dc.configData.flags ||| 1) % 65536 }
              state := State.DONE },
            { w with
              eeprom := EEPROM_put w.eeprom dc.eepromAddr
                { dc.configData with flags := (dc.configData.flags ||| 1) % 65536 } }) := by
    rcases hl with h | h <;> rw [h, subscriptionHandler_of_suffix _ _ _ _ hname]
  refine ⟨({ dc with
              configData := { dc.configData with flags := (dc.configData.flags ||| 1) % 65536 }
              state := State.DONE },
            { w with
              eeprom := EEPROM_put w.eeprom dc.eepromAddr
                { dc.configData with flags := (dc.configData.flags ||| 1) % 65536 } }),
    ?_, ?_, rfl, rfl, ?_, rfl, ?_, rfl, rfl, ?_⟩
  · simp only [calls, call, Option.some_bind, hfirst]
  · simp only [calls, call, subscriptionHandler_of_suffix eventName data dc w hname,
      Option.some_bind]
    rw [loop_of_DONE _ _ _ _ _ rfl]
  · exact (isClaimed_iff _).2 (or_one_mod _)
  · rw [EEPROM_get_put]
    exact (testBit_zero_iff _).2 (by simpa using or_one_mod dc.configData.flags)
  · intro h
    refine ⟨by simp [loop, hstate, h], hfirst⟩

/-- Witness of C20: CHECK_WAIT entered at 1000 ms, a tick at 11000 ms (the
timeout) and the response "a/0", in both orders. -/
theorem C20_response_and_timeout_commute_witness :
    ({ DeviceClaim.new ⟨0x750ca339, 0, 0⟩ with
        state := State.CHECK_WAIT, stateTime := 1000 }).state = State.CHECK_WAIT ∧
    ['/', '0'] <:+ ("a/0" : String).data ∧
    ∃ s, calls [Call.loop true 11000 11000, Call.subscriptionHandler "a/0" ""]
          ({ DeviceClaim.new ⟨0x750ca339, 0, 0⟩ with
              state := State.CHECK_WAIT, stateTime := 1000 },
           World.boot (fun _ => 255) "e00fce68") = some s ∧
      calls [Call.subscriptionHandler "a/0" "", Call.loop true 11000 11000]
          ({ DeviceClaim.new ⟨0x750ca339, 0, 0⟩ with
              state := State.CHECK_WAIT, stateTime := 1000 },
           World.boot (fun _ => 255) "e00fce68") = some s ∧
      s.1.state = State.DONE :=
  ⟨rfl, by decide,
   (C20_response_and_timeout_commute true 11000 11000 "a/0" ""
      { DeviceClaim.new ⟨0x750ca339, 0, 0⟩ with state := State.CHECK_WAIT, stateTime := 1000 }
      (World.boot (fun _ => 255) "e00fce68") rfl (by decide)).imp
     fun _ h => ⟨h.1, h.2.1, h.2.2.1⟩⟩

end DeviceClaimRK
